import Mathlib

/-!
Shallow embedding of the fs-parse binary decoders (BGL scenery container and
MDL model container) together with proofs about the natural-language
specification of the repository.

Conventions of the embedding:
* A byte buffer is a `List Nat`; decoders never write, so bytes are only read.
* Python's clamping slice `b[i:j]` is `pySlice`; `struct.unpack(fmt, s)`
  requires `s` to have exactly `calcsize fmt` bytes, which for a slice
  `b[off:off+n]` is the bounds check `off + n ≤ b.length` (errors map to
  `Err.truncated`).
* The source passes `struct` format strings with native (`@`) sizes on the
  simulator's platform, where `L` is a 4-byte unsigned long, `l` a 4-byte
  signed long, `Q` an 8-byte unsigned, `H`/`B`/`f` 2/1/4 bytes, all
  little-endian; the layouts used here have no alignment padding at those
  sizes.  Field offsets below follow that layout.
* IEEE-754 float fields (`f` formats) are kept as their raw 32-bit
  little-endian patterns: the source only converts them for presentation
  (degrees, metres) and no decoding decision depends on the converted value.
* 16-byte GUID fields (`16s`) are kept as their raw byte slices; the
  source's `uuid.UUID(bytes_le=...)` is an injective re-ordering of those
  bytes that never fails and that no decoding decision depends on.
* Python exceptions are an `Except Err` result; distinct raise sites get
  distinct `Err` constructors.
-/

set_option maxRecDepth 100000

deriving instance DecidableEq for Except

namespace FsParse

/-- A whole-file byte buffer (each entry is one byte value). -/
abbrev Bytes := List Nat

/-- Python's slice `b[start:stop]` for non-negative indices: clamped at the
buffer bounds, empty when `start ≥ stop`. -/
def pySlice (b : Bytes) (start stop : Nat) : Bytes :=
  (b.take stop).drop start

/-- One byte of the buffer (`b.getD i 0`; the zero default is never reached
under the bounds checks performed before every read). -/
def u8 : Bytes → Nat → Nat
  | [], _ => 0
  | v :: _, 0 => v
  | _ :: rest, i + 1 => u8 rest i

/-- Little-endian 16-bit read at absolute offset `i`. -/
def u16 (b : Bytes) (i : Nat) : Nat := u8 b i + 0x100 * u8 b (i + 1)

/-- Little-endian 32-bit read at absolute offset `i`. -/
def u32 (b : Bytes) (i : Nat) : Nat := u16 b i + 0x10000 * u16 b (i + 2)

/-- Little-endian 64-bit read at absolute offset `i`. -/
def u64 (b : Bytes) (i : Nat) : Nat := u32 b i + 0x100000000 * u32 b (i + 4)

/-- Little-endian signed 32-bit read (`struct` format `l`). -/
def i32 (b : Bytes) (i : Nat) : Int :=
  let v := u32 b i
  if v < 0x80000000 then (v : Int) else (v : Int) - 0x100000000

/-- Error kinds; one constructor per family of raise sites in the source. -/
inductive Err where
  /-- `struct.error`: the slice handed to `struct.unpack` is shorter than the
  format requires. -/
  | truncated : Err
  /-- `IndexError` from reading past the end of a buffer byte by byte. -/
  | indexError : Err
  /-- `UnicodeDecodeError` from `str(value, 'ascii')` on a byte ≥ 0x80. -/
  | asciiError : Err
  /-- `ValueError` from converting a raw integer into an `IntEnum` member. -/
  | enumError : Err
  /-- `raise Exception(f"UNKNOWN scenery object type ...")`. -/
  | unknownSceneryType (id : Nat) : Err
  /-- `raise Exception(f"Unknown attached object type ...")`. -/
  | unknownAttachedType (id : Nat) : Err
  /-- `raise Exception(f"attachedObject closing delimiter id is ...")`. -/
  | delimiterMismatch (id : Nat) : Err
  /-- `raise Exception(f"Unknown section ...")` in the MDL data chunk. -/
  | unknownChunk (tag : Bytes) : Err
  /-- `TypeError`: `subsection_class()` when the mapping stores `None`. -/
  | noneNotCallable : Err
  deriving DecidableEq, Repr

/-! ## fs_parse/utils.py : numeric and string codecs -/

/-- `stringz_2_ascii` strips the `0x00` bytes from both ends of the value
(Python's `str.strip('\x7bchr(0)\x7d')` removes them from head and tail). -/
def stripZeros (v : Bytes) : Bytes :=
  ((v.dropWhile (· = 0)).reverse.dropWhile (· = 0)).reverse

/-- `str(value, 'ascii')` followed by the zero-strip of `stringz_2_ascii`;
the ASCII codec rejects any byte ≥ 0x80. -/
def stringz2Ascii (v : Bytes) : Except Err Bytes :=
  if v.all (· < 0x80) then .ok (stripZeros v) else .error .asciiError

/-- The accumulation loop of `read_stringz`: append bytes until the first
zero byte; running past the end of the buffer is an `IndexError`.  The
source indexes `buffer[i]` for `i = 0, 1, 2, ...`; the embedding consumes
the buffer byte by byte from the front, which visits the same bytes in the
same order. -/
def readStringzLoop : Bytes → Bytes → Except Err Bytes
  | [], _ => .error .indexError
  | v :: rest, acc =>
      if v = 0 then .ok (acc ++ [v])
      else readStringzLoop rest (acc ++ [v])

/-- `read_stringz`: zero-terminated string with no alignment padding. -/
def readStringz (b : Bytes) : Except Err Bytes := do
  let raw ← readStringzLoop b []
  stringz2Ascii raw

/-- The loop of `read_stringz_word_aligned`: consume bytes (the source
indexes `buffer[i]` for `i = 0, 1, 2, ...`; the embedding consumes the
buffer from the front, tracking `i`), set `terminating` at the first zero
byte, and stop only at an odd index once terminating, so the total number
of consumed bytes is even.  Running past the end is an `IndexError`. -/
def rswaLoop : Bytes → Nat → Bool → Bytes → Except Err (Nat × Bytes)
  | [], _, _, _ => .error .indexError
  | v :: rest, i, terminating, acc =>
      let acc' := acc ++ [v]
      let terminating' := terminating || (v = 0)
      if i % 2 = 1 && terminating' then .ok (i + 1, acc')
      else rswaLoop rest (i + 1) terminating' acc'

/-- `read_stringz_word_aligned`: returns `(raw_size, string)` where
`raw_size` counts the terminator and any padding byte. -/
def readStringzWordAligned (b : Bytes) : Except Err (Nat × Bytes) := do
  let (rawsize, raw) ← rswaLoop b 0 false []
  let s ← stringz2Ascii raw
  .ok (rawsize, s)

/-- The subnormal normalisation loop of `half_float_2_float`
(`while not (f & 0x400): f <<= 1; e -= 1`).  The source only reaches the loop
with `0 < f ≤ 0x3ff`, where `f` stays below `0x800` and the bit-10 test is
equivalent to `f < 0x400`; the `f < 0x400` guard used here makes the
recursion total in Lean and agrees with the source on every reachable input. -/
def hfNormalize (f : Nat) (e : Int) : Nat × Int :=
  if h : 0 < f ∧ f < 0x400 then hfNormalize (f <<< 1) (e - 1)
  else (f, e)
  termination_by 0x400 - f
  decreasing_by
    simp only [Nat.shiftLeft_eq, Nat.pow_one]
    omega

/-- `half_float_2_float`: expands an IEEE-754 half-precision bit pattern to
the corresponding single-precision bit pattern.  The Python function returns
this value as a plain `int`; it never reinterprets the bits as a float. -/
def halfFloat2Float (float16 : Nat) : Nat :=
  let s := (float16 >>> 15) &&& 0x1
  let e := (float16 >>> 10) &&& 0x1f
  let f := float16 &&& 0x3ff
  if e = 0 then
    if f = 0 then s <<< 31
    else
      let (f1, e1) := hfNormalize f 0
      let e2 := e1 + 1
      -- `f &= ~0x400` clears bit 10; after the loop `f1 < 0x800`, so this is
      -- `f1 &&& 0x3ff`.
      let f2 := f1 &&& 0x3ff
      let e3 := e2 + (127 - 15)
      (s <<< 31) ||| (e3.toNat <<< 23) ||| (f2 <<< 13)
  else if e = 31 then
    if f = 0 then (s <<< 31) ||| 0x7f800000
    else (s <<< 31) ||| 0x7f800000 ||| (f <<< 13)
  else
    (s <<< 31) ||| ((e + (127 - 15)) <<< 23) ||| (f <<< 13)

/-! ## fs_parse/bgl/classes.py : BGLHeader -/

/-- The decoded timestamp: either the 1601-01-01 base plus a microsecond
offset, or (when that addition overflows Python's date range) the
1970-01-01 base plus a microsecond offset. -/
inductive FiletimeRepr where
  | from1601 (microseconds : Nat) : FiletimeRepr
  | from1970 (microseconds : Nat) : FiletimeRepr
  deriving DecidableEq, Repr

/-- Microseconds from 1601-01-01T00:00:00 to Python's `datetime.max`
(9999-12-31T23:59:59.999999): 3067670 days plus 86399.999999 seconds.
`datetime(1601,1,1) + timedelta(microseconds=n)` raises `OverflowError`
exactly when `n` exceeds this bound (for the magnitudes a u64 field can
produce, `timedelta` construction itself cannot overflow). -/
def max1601Microseconds : Nat := 3067670 * 86400 * 1000000 + 86399999999

/-- The timestamp computation of `BGLHeader.parse`.  The source computes
`int(raw / 10)` and `int(microseconds / 1000)` with Python float division;
the embedding uses exact integer division, which agrees whenever the
quotients are exactly representable as doubles (in particular at every
input appearing in the theorems below). -/
def filetimeOf (raw : Nat) : FiletimeRepr :=
  let microseconds := raw / 10
  if microseconds ≤ max1601Microseconds then
    .from1601 microseconds
  else
    -- `except OverflowError:` — "if the filetime value is wrong, it's
    -- encoded as a nanoseconds epoch timestamp"
    let nanoseconds := microseconds / 1000
    .from1970 nanoseconds

/-- Decoded `BGLHeader` fields (format `@2LQ10L`, 56 bytes). -/
structure BGLHeaderS where
  magicNumber1 : Nat
  headerSize : Nat
  filetime : FiletimeRepr
  magicNumber2 : Nat
  sectionsCount : Nat
  qmidSlots : List Nat
  deriving DecidableEq, Repr

/-- `BGLHeader.parse`: one 56-byte `struct.unpack` plus the timestamp
computation.  Note that the decoded magic fields are stored without any
comparison against the expected constants. -/
def bglHeaderParse (b : Bytes) (off : Nat) : Except Err BGLHeaderS :=
  if off + 56 ≤ b.length then
    .ok { magicNumber1 := u32 b off
          headerSize := u32 b (off + 4)
          filetime := filetimeOf (u64 b (off + 8))
          magicNumber2 := u32 b (off + 16)
          sectionsCount := u32 b (off + 20)
          qmidSlots := (List.range 8).map (fun i => u32 b (off + 24 + 4 * i)) }
  else .error .truncated

/-! ## fs_parse/bgl/records/sceneryobject.py -/

/-- The two record families: FS9 variants and FSX variants (the FSX scenery
header carries an extra 16-byte instance identifier). -/
inductive Family where
  | fs9 : Family
  | fsx : Family
  deriving DecidableEq, Repr

/-- Modelled from the spec: the `ImageComplexity` enumeration lives in
`fs_parse/bgl/constants.py`, which is not among the sources; the spec only
calls the field an "image-complexity enum" and the code names `VERY_SPARSE`
as its lowest member.  Modelled as the five standard complexity levels 0–4;
`ImageComplexity(raw)` raises `ValueError` outside the enumeration. -/
def imageComplexityValid (raw : Nat) : Bool := raw < 5

/-- Decoded scenery-object record header (`@2H2Ll6H`, 28 bytes; the FSX
variant appends a 16-byte instance identifier).  Raw angle/altitude values
are kept unconverted: the source's degree/metre conversions are pure float
post-processing. -/
structure SceneryHeaderS where
  id : Nat
  size : Nat
  lonRaw : Nat
  latRaw : Nat
  altRaw : Int
  isAboveAgl : Bool
  noAutogenSuppression : Bool
  noCrash : Bool
  noFog : Bool
  noShadow : Bool
  noZWrite : Bool
  noZTest : Bool
  pitchRaw : Nat
  bankRaw : Nat
  hdgRaw : Nat
  imageComplexity : Nat
  unknown : Nat
  instanceId : Option Bytes
  deriving DecidableEq, Repr

/-- Fixed size of the family's record header: 28 bytes (FS9) or 28 + 16
bytes (FSX, `total_size` of `FSXSceneryObjectHeader`). -/
def sceneryHeaderSize : Family → Nat
  | .fs9 => 28
  | .fsx => 44

/-- `SceneryObjectHeader.parse` (and the FSX override that additionally
unpacks the 16-byte instance identifier right after the 28 fixed bytes). -/
def sceneryHeaderParse (fam : Family) (b : Bytes) (off : Nat) :
    Except Err SceneryHeaderS :=
  if off + 28 ≤ b.length then
    let flags := u16 b (off + 16)
    let ic := u16 b (off + 24)
    if imageComplexityValid ic then
      let base : SceneryHeaderS :=
        { id := u16 b off
          size := u16 b (off + 2)
          lonRaw := u32 b (off + 4)
          latRaw := u32 b (off + 8)
          altRaw := i32 b (off + 12)
          isAboveAgl := flags &&& 0x1 ≠ 0
          noAutogenSuppression := flags &&& 0x2 ≠ 0
          noCrash := flags &&& 0x4 ≠ 0
          noFog := flags &&& 0x8 ≠ 0
          noShadow := flags &&& 0x10 ≠ 0
          noZWrite := flags &&& 0x20 ≠ 0
          noZTest := flags &&& 0x40 ≠ 0
          pitchRaw := u16 b (off + 18)
          bankRaw := u16 b (off + 20)
          hdgRaw := u16 b (off + 22)
          imageComplexity := ic
          unknown := u16 b (off + 26)
          instanceId := none }
      match fam with
      | .fs9 => .ok base
      | .fsx =>
          if off + 44 ≤ b.length then
            .ok { base with instanceId := some (pySlice b (off + 28) (off + 44)) }
          else .error .truncated
    else .error .enumError
  else .error .truncated

/-- Decoded `LibraryObject` info block (`@16sf`, 20 bytes): a GUID plus a
scale factor (kept as its raw 32-bit pattern). -/
structure LibraryObjectInfoS where
  uuidBytes : Bytes
  scaleRaw : Nat
  deriving DecidableEq, Repr

/-- `LibraryObject.parse`. -/
def libraryObjectInfoParse (b : Bytes) (off : Nat) :
    Except Err LibraryObjectInfoS :=
  if off + 20 ≤ b.length then
    .ok { uuidBytes := pySlice b off (off + 16), scaleRaw := u32 b (off + 16) }
  else .error .truncated

/-- Modelled from the spec: the `BeaconType` enumeration lives in
`fs_parse/bgl/constants.py`, which is not among the sources; the spec does
not list its members (the code names only `CIVILIAN_AIRPORT`).  Modelled as
accepting every raw value; no claim below depends on this check. -/
def beaconTypeValid (_raw : Nat) : Bool := true

/-- Decoded `Beacon` fields (`@2BH`, 4 bytes). -/
structure BeaconS where
  beaconType : Nat
  unknownAlways1 : Nat
  unknownAlways0 : Nat
  deriving DecidableEq, Repr

/-- `Beacon.parse`. -/
def beaconParse (b : Bytes) (off : Nat) : Except Err BeaconS :=
  if off + 4 ≤ b.length then
    let bt := u8 b off
    if beaconTypeValid bt then
      .ok { beaconType := bt
            unknownAlways1 := u8 b (off + 1)
            unknownAlways0 := u16 b (off + 2) }
    else .error .enumError
  else .error .truncated

/-- The payload of an attached object, polymorphic on its type id field. -/
inductive AttachedPayload where
  | libraryObject (info : LibraryObjectInfoS) : AttachedPayload
  | beacon (bc : BeaconS) : AttachedPayload
  deriving DecidableEq, Repr

/-- Decoded attached-object tail (`FSXAttachedObjectData`, `@8H3f16s2H`,
48 fixed bytes; `FS9AttachedObjectData`, `@8H3f`, 28 fixed bytes — the FS9
variant lacks the instance id, probability and randomness fields). -/
structure AttachedObjectS where
  id : Nat
  startDelimiterSize : Nat
  objectTypeId : Nat
  attachedObjectDataSize : Nat
  attachPointStringRelativeOffset : Nat
  pitchRaw : Nat
  bankRaw : Nat
  hdgRaw : Nat
  biasXRaw : Nat
  biasYRaw : Nat
  biasZRaw : Nat
  instanceId : Option Bytes
  probability : Option Nat
  randomness : Option Nat
  objData : AttachedPayload
  attachPointName : Bytes
  closingDelimiterId : Nat
  closingDelimiterSize : Nat
  deriving DecidableEq, Repr

/-- `total_size` of an attached-object tail. -/
def attachedTotalSize (a : AttachedObjectS) : Nat :=
  a.startDelimiterSize + a.attachedObjectDataSize + a.closingDelimiterSize

/-- Size of the fixed prefix of the family's attached-object record. -/
def attachedFixedSize : Family → Nat
  | .fs9 => 28
  | .fsx => 48

/-- The 2-byte tag that announces an attached-object tail after a library
object's info block (`attached_object_delimiter_id`). -/
def attachedOpenDelimiterId : Family → Nat
  | .fs9 => 0x1000
  | .fsx => 0x1002

/-- The value the closing delimiter id is compared against in
`FS9AttachedObjectData.parse` (`0x1001`) and `FSXAttachedObjectData.parse`
(`0x1003`). -/
def attachedClosingDelimiterId : Family → Nat
  | .fs9 => 0x1001
  | .fsx => 0x1003

/-- `SceneryObjectRecordType` members used for the attached payload
dispatch: `FS9_LIB_OBJ = 0x02`, `FSX_LIB_OBJ = 0x0B`, `FS9_BEACON = 0x08`,
`FSX_BEACON = 0x11`. -/
def isLibObjTypeId (id : Nat) : Bool := id = 0x02 || id = 0x0B

def isBeaconTypeId (id : Nat) : Bool := id = 0x08 || id = 0x11

/-- `FS9AttachedObjectData.parse` / `FSXAttachedObjectData.parse`: the fixed
prefix, then the payload polymorphic on `object_type_id`, then the word
aligned attach-point name at `start_delimiter_size +
attach_point_string_relative_offset` from the record start, then the 4-byte
closing delimiter at `start_delimiter_size + attached_object_data_size`,
whose id must equal the family's constant. -/
def attachedObjectParse (fam : Family) (b : Bytes) (off : Nat) :
    Except Err AttachedObjectS := do
  let fsize := attachedFixedSize fam
  if off + fsize ≤ b.length then
    let sds := u16 b (off + 2)
    let objTypeId := u16 b (off + 4)
    let aods := u16 b (off + 6)
    let payload ←
      if isLibObjTypeId objTypeId then do
        let info ← libraryObjectInfoParse b (off + fsize)
        pure (AttachedPayload.libraryObject info)
      else if isBeaconTypeId objTypeId then do
        let bc ← beaconParse b (off + fsize)
        pure (AttachedPayload.beacon bc)
      else .error (.unknownAttachedType objTypeId)
    let (_, name) ←
      readStringzWordAligned
        (b.drop (off + sds + u16 b (off + 8)))
    let endDelimiterOffset := off + sds + aods
    if endDelimiterOffset + 4 ≤ b.length then
      let closingId := u16 b endDelimiterOffset
      if closingId = attachedClosingDelimiterId fam then
        .ok { id := u16 b off
              startDelimiterSize := sds
              objectTypeId := objTypeId
              attachedObjectDataSize := aods
              attachPointStringRelativeOffset := u16 b (off + 8)
              pitchRaw := u16 b (off + 10)
              bankRaw := u16 b (off + 12)
              hdgRaw := u16 b (off + 14)
              biasXRaw := u32 b (off + 16)
              biasYRaw := u32 b (off + 20)
              biasZRaw := u32 b (off + 24)
              instanceId :=
                match fam with
                | .fs9 => none
                | .fsx => some (pySlice b (off + 28) (off + 44))
              probability :=
                match fam with
                | .fs9 => none
                | .fsx => some (u16 b (off + 44))
              randomness :=
                match fam with
                | .fs9 => none
                | .fsx => some (u16 b (off + 46))
              objData := payload
              attachPointName := name
              closingDelimiterId := closingId
              closingDelimiterSize := u16 b (endDelimiterOffset + 2) }
      else .error (.delimiterMismatch closingId)
    else .error .truncated
  else .error .truncated

/-- Decoded library-object placement record (`LibraryObjectRecord` /
`FS9LibraryObjectRecord`). -/
structure LibraryObjectS where
  header : SceneryHeaderS
  objInfo : LibraryObjectInfoS
  attached : Option AttachedObjectS
  deriving DecidableEq, Repr

/-- `LibraryObjectRecord.total_size`: the header-declared record size plus
the attached tail's total size when a tail is present. -/
def libraryObjectTotalSize (r : LibraryObjectS) : Nat :=
  r.header.size +
    (match r.attached with
     | some a => attachedTotalSize a
     | none => 0)

/-- `LibraryObjectRecord.parse`: the family header, a discarded 20-byte
unpack at the record start (`_ = self.get_data(...)`, bounds-checked all the
same), the object-info block at `data_offset`, then a 2-byte peek right
after it — an empty peek slice means no attached object, a 1-byte slice is
a `struct.error`, and a tail is decoded only when the peeked id equals the
family's open-delimiter tag. -/
def libraryObjectParse (fam : Family) (b : Bytes) (off : Nat) :
    Except Err LibraryObjectS := do
  let h ← sceneryHeaderParse fam b off
  if off + 20 ≤ b.length then
    let dataOffset := off + sceneryHeaderSize fam
    let oi ← libraryObjectInfoParse b dataOffset
    let nextRecordOffset := dataOffset + 20
    let peek := pySlice b nextRecordOffset (nextRecordOffset + 2)
    if peek.length = 0 then
      .ok { header := h, objInfo := oi, attached := none }
    else if peek.length = 2 then
      let nextId := u16 b nextRecordOffset
      if nextId = attachedOpenDelimiterId fam then do
        let a ← attachedObjectParse fam b nextRecordOffset
        .ok { header := h, objInfo := oi, attached := some a }
      else
        .ok { header := h, objInfo := oi, attached := none }
    else .error .truncated
  else .error .truncated

/-- Decoded `FSXBeaconRecord` / `FS9BeaconRecord`. -/
structure BeaconRecordS where
  header : SceneryHeaderS
  obj : BeaconS
  deriving DecidableEq, Repr

/-- `FSXBeaconRecord.parse`: the family header, then the beacon fields at
`data_offset`. -/
def beaconRecordParse (fam : Family) (b : Bytes) (off : Nat) :
    Except Err BeaconRecordS := do
  let h ← sceneryHeaderParse fam b off
  let bc ← beaconParse b (off + sceneryHeaderSize fam)
  .ok { header := h, obj := bc }

/-- Decoded `FSXWindSock` / `FS9WindSock` (`@2f4s4sH`, 18 bytes of payload). -/
structure WindSockS where
  header : SceneryHeaderS
  poleHeightRaw : Nat
  sockLengthRaw : Nat
  poleRgba : Bytes
  sockRgba : Bytes
  flagLighted : Nat
  deriving DecidableEq, Repr

/-- `FSXWindSock.parse`. -/
def windSockParse (fam : Family) (b : Bytes) (off : Nat) :
    Except Err WindSockS := do
  let h ← sceneryHeaderParse fam b off
  let d := off + sceneryHeaderSize fam
  if d + 18 ≤ b.length then
    .ok { header := h
          poleHeightRaw := u32 b d
          sockLengthRaw := u32 b (d + 4)
          poleRgba := pySlice b (d + 8) (d + 12)
          sockRgba := pySlice b (d + 12) (d + 16)
          flagLighted := u16 b (d + 16) }
  else .error .truncated

/-- Decoded `FSXEffectPlacement` / `FS9EffectPlacement`. -/
structure EffectS where
  header : SceneryHeaderS
  effectName : Bytes
  effectParams : Bytes
  deriving DecidableEq, Repr

/-- `FSXEffectPlacement.parse`: an 80-byte name slot at `data_offset`
(read as a word-aligned string from that slot), then a free-text parameter
string in the slice `[data_offset + 80, record_start + header_size +
declared_size)` — in the source the slice stop is `params_offset +
(header.size - 80)`, an `int` expression equal to the bound used here. -/
def effectParse (fam : Family) (b : Bytes) (off : Nat) :
    Except Err EffectS := do
  let h ← sceneryHeaderParse fam b off
  let d := off + sceneryHeaderSize fam
  if d + 80 ≤ b.length then
    let nameBuffer := pySlice b d (d + 80)
    let (_, name) ← readStringzWordAligned nameBuffer
    let paramsOffset := d + 80
    let paramsStop := off + sceneryHeaderSize fam + h.size
    let params ← readStringz (pySlice b paramsOffset paramsStop)
    .ok { header := h, effectName := name, effectParams := params }
  else .error .truncated

/-- Modelled from the spec: the `TaxiwaySignJustification` enumeration lives
in `fs_parse/bgl/constants.py`, which is not among the sources (the code
names only `LEFT`).  Modelled as accepting every raw value; no claim below
depends on this check. -/
def taxiwaySignJustificationValid (_raw : Nat) : Bool := true

/-- Decoded `TaxiwaySignDataItem` (`@2fH2B`, 12 fixed bytes, then the word
aligned label).  The sign's degree coordinates are float post-processing of
the raw offsets and the parent anchor; the raw values are kept. -/
structure TaxiwaySignItemS where
  lonOffsetRaw : Nat
  latOffsetRaw : Nat
  hdgRaw : Nat
  textSize : Nat
  justification : Nat
  labelRawSize : Nat
  label : Bytes
  deriving DecidableEq, Repr

/-- `TaxiwaySignDataItem.total_size`. -/
def taxiwaySignItemTotalSize (it : TaxiwaySignItemS) : Nat :=
  12 + it.labelRawSize

/-- `TaxiwaySignDataItem.parse`. -/
def taxiwaySignItemParse (b : Bytes) (off : Nat) :
    Except Err TaxiwaySignItemS := do
  if off + 12 ≤ b.length then
    let just := u8 b (off + 11)
    if taxiwaySignJustificationValid just then do
      let (rawsize, label) ← readStringzWordAligned (b.drop (off + 12))
      .ok { lonOffsetRaw := u32 b off
            latOffsetRaw := u32 b (off + 4)
            hdgRaw := u16 b (off + 8)
            textSize := u8 b (off + 10)
            justification := just
            labelRawSize := rawsize
            label := label }
    else .error .enumError
  else .error .truncated

/-- Decoded `FSXTaxiwaySign` / `FS9TaxiwaySign` container record. -/
structure TaxiwaySignRecordS where
  header : SceneryHeaderS
  taxiwaySignsCount : Nat
  items : List TaxiwaySignItemS
  deriving DecidableEq, Repr

/-- The item loop of `FSXTaxiwaySign.parse`: each item is decoded at the
previous item's offset plus that item's `total_size`. -/
def taxiwaySignItemsLoop (b : Bytes) (off : Nat) :
    Nat → Except Err (List TaxiwaySignItemS)
  | 0 => .ok []
  | n + 1 => do
      let it ← taxiwaySignItemParse b off
      let rest ← taxiwaySignItemsLoop b (off + taxiwaySignItemTotalSize it) n
      .ok (it :: rest)

/-- `FSXTaxiwaySign.parse`: the family header, a sign count (`@L`) at
`data_offset`, then that many variable-size items. -/
def taxiwaySignParse (fam : Family) (b : Bytes) (off : Nat) :
    Except Err TaxiwaySignRecordS := do
  let h ← sceneryHeaderParse fam b off
  let d := off + sceneryHeaderSize fam
  if d + 4 ≤ b.length then
    let count := u32 b d
    let items ← taxiwaySignItemsLoop b (d + 4) count
    .ok { header := h, taxiwaySignsCount := count, items := items }
  else .error .truncated

/-- Decoded `ExtrusionBridgeRecord` (`@16s16s3L3L2f2BH`, 68 fixed payload
bytes, then `placement_count` 16-byte identifiers and `point_count`
`@3L` triples). -/
structure ExtrusionBridgeS where
  header : SceneryHeaderS
  profile : Bytes
  materialSet : Bytes
  altitudeSample1Lat : Nat
  altitudeSample1Lon : Nat
  altitudeSample1Alt : Nat
  altitudeSample2Lat : Nat
  altitudeSample2Lon : Nat
  altitudeSample2Alt : Nat
  roadWidthRaw : Nat
  probabilityRaw : Nat
  suppress : Nat
  placementCount : Nat
  pointCount : Nat
  placements : List Bytes
  points : List (Nat × Nat × Nat)
  deriving DecidableEq, Repr

/-- The placements loop of `ExtrusionBridgeRecord.parse`: `placement_count`
16-byte identifiers at fixed stride. -/
def ebPlacementsLoop (b : Bytes) (base : Nat) (i : Nat) :
    Nat → Except Err (List Bytes)
  | 0 => .ok []
  | n + 1 =>
      let cur := base + i * 16
      if cur + 16 ≤ b.length then do
        let rest ← ebPlacementsLoop b base (i + 1) n
        .ok (pySlice b cur (cur + 16) :: rest)
      else .error .truncated

/-- The points loop of `ExtrusionBridgeRecord.parse`: `point_count` `@3L`
triples at fixed stride (lon/lat kept raw; the source converts them to
degrees as float post-processing). -/
def ebPointsLoop (b : Bytes) (base : Nat) (i : Nat) :
    Nat → Except Err (List (Nat × Nat × Nat))
  | 0 => .ok []
  | n + 1 =>
      let cur := base + i * 12
      if cur + 12 ≤ b.length then do
        let rest ← ebPointsLoop b base (i + 1) n
        .ok ((u32 b cur, u32 b (cur + 4), u32 b (cur + 8)) :: rest)
      else .error .truncated

/-- `ExtrusionBridgeRecord.parse` (FSX header family). -/
def extrusionBridgeParse (b : Bytes) (off : Nat) :
    Except Err ExtrusionBridgeS := do
  let h ← sceneryHeaderParse .fsx b off
  let d := off + sceneryHeaderSize .fsx
  if d + 68 ≤ b.length then
    let placementCount := u8 b (d + 65)
    let pointCount := u16 b (d + 66)
    let placementsOffset := d + 68
    let placements ← ebPlacementsLoop b placementsOffset 0 placementCount
    let pointsOffset := placementsOffset + placementCount * 16
    let points ← ebPointsLoop b pointsOffset 0 pointCount
    .ok { header := h
          profile := pySlice b d (d + 16)
          materialSet := pySlice b (d + 16) (d + 32)
          altitudeSample1Lat := u32 b (d + 32)
          altitudeSample1Lon := u32 b (d + 36)
          altitudeSample1Alt := u32 b (d + 40)
          altitudeSample2Lat := u32 b (d + 44)
          altitudeSample2Lon := u32 b (d + 48)
          altitudeSample2Alt := u32 b (d + 52)
          roadWidthRaw := u32 b (d + 56)
          probabilityRaw := u32 b (d + 60)
          suppress := u8 b (d + 64)
          placementCount := placementCount
          pointCount := pointCount
          placements := placements
          points := points }
  else .error .truncated

/-- The `SCENERYOBJECTS_IDS` registry: the 15 known record type tags. -/
inductive SceneryRecordKind where
  | fs9GenericBuilding | fs9LibObj | fs9Windsock | fs9Fx | fs9TaxiwaySign
  | fs9Trigger | fs9Beacon
  | fsxGenericBuilding | fsxLibObj | fsxWindsock | fsxFx | fsxTaxiwaySign
  | fsxTrigger | fsxBeacon | fsxExtrusionBridge
  deriving DecidableEq, Repr

/-- `SCENERYOBJECTS_IDS.get(decoded_id, None)`. -/
def sceneryObjectsIds (id : Nat) : Option SceneryRecordKind :=
  match id with
  | 0x01 => some .fs9GenericBuilding
  | 0x02 => some .fs9LibObj
  | 0x03 => some .fs9Windsock
  | 0x04 => some .fs9Fx
  | 0x05 => some .fs9TaxiwaySign
  | 0x07 => some .fs9Trigger
  | 0x08 => some .fs9Beacon
  | 0x0A => some .fsxGenericBuilding
  | 0x0B => some .fsxLibObj
  | 0x0C => some .fsxWindsock
  | 0x0D => some .fsxFx
  | 0x0E => some .fsxTaxiwaySign
  | 0x10 => some .fsxTrigger
  | 0x11 => some .fsxBeacon
  | 0x12 => some .fsxExtrusionBridge
  | _ => none

/-- A decoded scenery-object record of any variant. -/
inductive SceneryRecord where
  | libraryObject (fam : Family) (r : LibraryObjectS) : SceneryRecord
  | beacon (fam : Family) (r : BeaconRecordS) : SceneryRecord
  | windsock (fam : Family) (r : WindSockS) : SceneryRecord
  | effect (fam : Family) (r : EffectS) : SceneryRecord
  | taxiwaySign (fam : Family) (r : TaxiwaySignRecordS) : SceneryRecord
  | genericBuilding (fam : Family) (header : SceneryHeaderS) : SceneryRecord
  | trigger (fam : Family) (header : SceneryHeaderS) : SceneryRecord
  | extrusionBridge (r : ExtrusionBridgeS) : SceneryRecord
  deriving DecidableEq, Repr

/-- The record's self-reported consumed size (`total_size`): the raw
header-declared size for every variant except a library-object placement
with an attached tail, which adds the tail's total size. -/
def SceneryRecord.totalSize : SceneryRecord → Nat
  | .libraryObject _ r => libraryObjectTotalSize r
  | .beacon _ r => r.header.size
  | .windsock _ r => r.header.size
  | .effect _ r => r.header.size
  | .taxiwaySign _ r => r.header.size
  | .genericBuilding _ h => h.size
  | .trigger _ h => h.size
  | .extrusionBridge r => r.header.size

/-- The header declared-size field of a decoded record. -/
def SceneryRecord.headerSize : SceneryRecord → Nat
  | .libraryObject _ r => r.header.size
  | .beacon _ r => r.header.size
  | .windsock _ r => r.header.size
  | .effect _ r => r.header.size
  | .taxiwaySign _ r => r.header.size
  | .genericBuilding _ h => h.size
  | .trigger _ h => h.size
  | .extrusionBridge r => r.header.size

/-- A placeholder record's parse (`FSXPlaceHolderRecord`): the family header
only. -/
def placeholderHeaderParse (fam : Family) (b : Bytes) (off : Nat) :
    Except Err SceneryHeaderS :=
  sceneryHeaderParse fam b off

/-- Dispatch to the variant decoder selected by the registry. -/
def parseSceneryRecordOfKind (k : SceneryRecordKind) (b : Bytes) (off : Nat) :
    Except Err SceneryRecord :=
  match k with
  | .fs9GenericBuilding => do
      let h ← placeholderHeaderParse .fs9 b off
      .ok (.genericBuilding .fs9 h)
  | .fs9LibObj => do
      let r ← libraryObjectParse .fs9 b off
      .ok (.libraryObject .fs9 r)
  | .fs9Windsock => do
      let r ← windSockParse .fs9 b off
      .ok (.windsock .fs9 r)
  | .fs9Fx => do
      let r ← effectParse .fs9 b off
      .ok (.effect .fs9 r)
  | .fs9TaxiwaySign => do
      let r ← taxiwaySignParse .fs9 b off
      .ok (.taxiwaySign .fs9 r)
  | .fs9Trigger => do
      let h ← placeholderHeaderParse .fs9 b off
      .ok (.trigger .fs9 h)
  | .fs9Beacon => do
      let r ← beaconRecordParse .fs9 b off
      .ok (.beacon .fs9 r)
  | .fsxGenericBuilding => do
      let h ← placeholderHeaderParse .fsx b off
      .ok (.genericBuilding .fsx h)
  | .fsxLibObj => do
      let r ← libraryObjectParse .fsx b off
      .ok (.libraryObject .fsx r)
  | .fsxWindsock => do
      let r ← windSockParse .fsx b off
      .ok (.windsock .fsx r)
  | .fsxFx => do
      let r ← effectParse .fsx b off
      .ok (.effect .fsx r)
  | .fsxTaxiwaySign => do
      let r ← taxiwaySignParse .fsx b off
      .ok (.taxiwaySign .fsx r)
  | .fsxTrigger => do
      let h ← placeholderHeaderParse .fsx b off
      .ok (.trigger .fsx h)
  | .fsxBeacon => do
      let r ← beaconRecordParse .fsx b off
      .ok (.beacon .fsx r)
  | .fsxExtrusionBridge => do
      let r ← extrusionBridgeParse b off
      .ok (.extrusionBridge r)

/-- The record loop of `SceneryObject.parse`: peek the next record's
`(id, size)` (`@2H` on a 4-byte slice), look the id up in the registry
(an unknown id is fatal), decode, then advance by the record's
self-reported `total_size` — not the peeked `size` field.  The offset each
record was decoded at is kept alongside the record so that the placement of
the stream can be stated. -/
def sceneryRecordsLoop (b : Bytes) (off : Nat) :
    Nat → Except Err (List (Nat × SceneryRecord))
  | 0 => .ok []
  | n + 1 =>
      if off + 4 ≤ b.length then
        let decodedId := u16 b off
        match sceneryObjectsIds decodedId with
        | none => .error (.unknownSceneryType decodedId)
        | some k => do
            let r ← parseSceneryRecordOfKind k b off
            let rest ← sceneryRecordsLoop b (off + r.totalSize) n
            .ok ((off, r) :: rest)
      else .error .truncated

/-! ## fs_parse/bgl/subsections.py and fs_parse/bgl/records/modeldata.py -/

/-- Decoded `BGLStandardSubSectionHeader` (`@4L`, 16 bytes). -/
structure SubSectionHeaderS where
  qmidA : Nat
  recordsNumber : Nat
  firstRecordFileOffset : Nat
  subsectionDataSize : Nat
  deriving DecidableEq, Repr

/-- `BGLStandardSubSectionHeader.parse`. -/
def standardSubSectionHeaderParse (b : Bytes) (off : Nat) :
    Except Err SubSectionHeaderS :=
  if off + 16 ≤ b.length then
    .ok { qmidA := u32 b off
          recordsNumber := u32 b (off + 4)
          firstRecordFileOffset := u32 b (off + 8)
          subsectionDataSize := u32 b (off + 12) }
  else .error .truncated

/-- `SceneryObject.parse` (the subsection): the standard header, then the
record stream starting at `first_record_file_offset` until
`records_number` records have been decoded. -/
def sceneryObjectSubSectionParse (b : Bytes) (off : Nat) :
    Except Err (SubSectionHeaderS × List (Nat × SceneryRecord)) := do
  let h ← standardSubSectionHeaderParse b off
  let records ← sceneryRecordsLoop b h.firstRecordFileOffset h.recordsNumber
  .ok (h, records)

/-- Decoded `ModelDataRecord` (`@16s2L`, 24 bytes): a GUID plus an
offset/length pair; `mdl_data` is the Python slice
`bgl_file_data[mdl_offset : mdl_offset + mdl_length]`, which is clamped at
the buffer bounds and never raises. -/
structure ModelDataRecordS where
  uuidBytes : Bytes
  mdlFileOffset : Nat
  mdlFileLength : Nat
  mdlData : Bytes
  deriving DecidableEq, Repr

/-- `ModelDataRecord.parse`. -/
def modelDataRecordParse (b : Bytes) (off : Nat) :
    Except Err ModelDataRecordS :=
  if off + 24 ≤ b.length then
    let mdlOffset := u32 b (off + 16)
    let mdlLength := u32 b (off + 20)
    .ok { uuidBytes := pySlice b off (off + 16)
          mdlFileOffset := mdlOffset
          mdlFileLength := mdlLength
          mdlData := pySlice b mdlOffset (mdlOffset + mdlLength) }
  else .error .truncated

/-- The record loop of `ModelData.parse`: fixed 24-byte slots starting at
`first_record_file_offset`; a failing record is skipped when
`skip_invalid` is set and aborts the subsection otherwise. -/
def modelDataRecordsLoop (skipInvalid : Bool) (b : Bytes) (base : Nat)
    (i : Nat) : Nat → Except Err (List ModelDataRecordS)
  | 0 => .ok []
  | n + 1 =>
      let recordOffset := base + i * 24
      match modelDataRecordParse b recordOffset with
      | .ok r => do
          let rest ← modelDataRecordsLoop skipInvalid b base (i + 1) n
          .ok (r :: rest)
      | .error e =>
          if skipInvalid then modelDataRecordsLoop skipInvalid b base (i + 1) n
          else .error e

/-- `ModelData.parse` (the subsection), with the caller-configurable
`skip_invalid` policy (constructor default `True`). -/
def modelDataSubSectionParse (skipInvalid : Bool) (b : Bytes) (off : Nat) :
    Except Err (SubSectionHeaderS × List ModelDataRecordS) := do
  let h ← standardSubSectionHeaderParse b off
  let records ←
    modelDataRecordsLoop skipInvalid b h.firstRecordFileOffset 0 h.recordsNumber
  .ok (h, records)

/-! ## fs_parse/bgl/classes.py : BGLSection -/

/-- The section type tags (`BGLSectionType`).  The enumeration's numeric
values live in `fs_parse/bgl/constants.py`, which is not among the sources;
the embedding therefore works with the decoded tag directly and leaves the
raw-u32-to-tag conversion outside the embedded fragment. -/
inductive BGLSectionType where
  | none | copyright | guid | airport | ilsVor | ndb | marker | boundary
  | waypoint | geopol | sceneryObject | namelist | vorIlsIcaoIndex
  | ndbIcaoIndex | waypointIcaoIndex | modelData | airportSummary
  | exclusion | timezone | terrainVectorDb | terrainElevation
  | terrainLandClass | terrainWaterClass | terrainRegion
  | populationDensity | autogenAnnotation | terrainIndex
  | terrainTextureLookup | terrainSeasonJan | terrainSeasonFeb
  | terrainSeasonMar | terrainSeasonApr | terrainSeasonMay
  | terrainSeasonJun | terrainSeasonJul | terrainSeasonAug
  | terrainSeasonSep | terrainSeasonOct | terrainSeasonNov
  | terrainSeasonDec | terrainPhotoJan | terrainPhotoFeb | terrainPhotoMar
  | terrainPhotoApr | terrainPhotoMay | terrainPhotoJun | terrainPhotoJul
  | terrainPhotoAug | terrainPhotoSep | terrainPhotoOct | terrainPhotoNov
  | terrainPhotoDec | terrainPhotoNight | tacan | tacanIndex | fakeTypes
  | icaoRunway
  deriving DecidableEq, Repr

/-- The three subsection decoder classes a section type can map to. -/
inductive SubsectionKind where
  | generic | sceneryObject | modelData
  deriving DecidableEq, Repr

/-- `BGLSection.subsections_mapping`: `NONE` and `COPYRIGHT` map to `None`
(no decoder); `SCENERYOBJECT` and `MODELDATA` map to their dedicated
decoders; every other tag maps to the generic `BGLSubSection`. -/
def subsectionsMapping : BGLSectionType → Option SubsectionKind
  | .none => Option.none
  | .copyright => Option.none
  | .sceneryObject => some .sceneryObject
  | .modelData => some .modelData
  | _ => some .generic

/-- A decoded subsection of any kind. -/
inductive SubsectionVal where
  | generic (h : SubSectionHeaderS) : SubsectionVal
  | sceneryObject (h : SubSectionHeaderS)
      (records : List (Nat × SceneryRecord)) : SubsectionVal
  | modelData (h : SubSectionHeaderS)
      (records : List ModelDataRecordS) : SubsectionVal
  deriving DecidableEq, Repr

/-- `subsection.parse` for each decoder class.  `BGLSubSection.parse` only
decodes the standard header; `ModelData` is constructed with its default
`skip_invalid=True` here, since `BGLSection.parse` instantiates the class
with no arguments. -/
def subsectionParse (k : SubsectionKind) (b : Bytes) (off : Nat) :
    Except Err SubsectionVal :=
  match k with
  | .generic => do
      let h ← standardSubSectionHeaderParse b off
      .ok (.generic h)
  | .sceneryObject => do
      let (h, records) ← sceneryObjectSubSectionParse b off
      .ok (.sceneryObject h records)
  | .modelData => do
      let (h, records) ← modelDataSubSectionParse true b off
      .ok (.modelData h records)

/-- The subsection loop of `BGLSection.parse`: `subsection_class()` is
called once per subsection, so when the mapping stores `None` the first
iteration raises `TypeError` (`None` is not callable); with zero declared
subsections the loop body never runs. -/
def bglSubsectionsLoop (cls : Option SubsectionKind) (b : Bytes)
    (start stride i : Nat) : Nat → Except Err (List SubsectionVal)
  | 0 => .ok []
  | n + 1 =>
      match cls with
      | Option.none => .error .noneNotCallable
      | some k => do
          let v ← subsectionParse k b (start + i * stride)
          let rest ← bglSubsectionsLoop cls b start stride (i + 1) n
          .ok (v :: rest)

/-- The body of `BGLSection.parse` after the five header fields have been
decoded and the raw type converted to its `BGLSectionType` tag: the stride
is `((raw & 0x10000) | 0x40000) >> 0x0E` and the subsections are decoded at
`start_offset + i * stride`. -/
def bglSectionParseFrom (ty : BGLSectionType) (rawStrideValue count start : Nat)
    (b : Bytes) : Except Err (List SubsectionVal) :=
  let stride := ((rawStrideValue &&& 0x10000) ||| 0x40000) >>> 0x0E
  bglSubsectionsLoop (subsectionsMapping ty) b start stride 0 count

/-! ## fs_parse/mdl/classes.py and fs_parse/mdl/mdld_classes.py -/

/-- Decoded `RIFFSectionHeader` (`4sL`, 8 bytes): a 4-byte tag plus a
payload length.  The tag is kept as its raw bytes; the source's
`str(type_id, 'utf-8')` only affects which error is raised for tags outside
the registry (every registered tag is plain ASCII). -/
structure RIFFHeaderS where
  typeId : Bytes
  dataSize : Nat
  deriving DecidableEq, Repr

/-- `RIFFSectionHeader.parse`. -/
def riffHeaderParse (b : Bytes) (off : Nat) : Except Err RIFFHeaderS :=
  if off + 8 ≤ b.length then
    .ok { typeId := pySlice b off (off + 4), dataSize := u32 b (off + 4) }
  else .error .truncated

/-- The loop of `TEXTSection.parse`: consecutive 64-byte texture-name
slots until the declared payload end. -/
def textLoop (b : Bytes) (stop current : Nat) : Except Err (List Bytes) :=
  if current < stop then
    if current + 64 ≤ b.length then do
      let name ← stringz2Ascii (pySlice b current (current + 64))
      let rest ← textLoop b stop (current + 64)
      .ok (name :: rest)
    else .error .truncated
  else .ok []
  termination_by stop - current
  decreasing_by omega

/-- Decoded `MaterialItem` (`9L16f3L2f`, 120 bytes; floats kept raw). -/
structure MaterialItemS where
  materialFlags : Nat
  materialFlags2 : Nat
  diffuseTextureIndex : Nat
  detailTextureIndex : Nat
  bumpmapTextureIndex : Nat
  specularTextureIndex : Nat
  emissiveTextureIndex : Nat
  reflectionTextureIndex : Nat
  fresnelTextureIndex : Nat
  colorFieldsRaw : List Nat
  sourceBlend : Nat
  destinationBlend : Nat
  alphaTestFunction : Nat
  alphaTestThresholdRaw : Nat
  finalAlphaMultiplyRaw : Nat
  deriving DecidableEq, Repr

/-- `BlendType` membership (`fs_parse/mdl/constants.py`: members 1–10). -/
def blendTypeValid (raw : Nat) : Bool := 1 ≤ raw && raw ≤ 10

/-- `AlphaTestFunction` membership (members 1–8). -/
def alphaTestFunctionValid (raw : Nat) : Bool := 1 ≤ raw && raw ≤ 8

/-- `AnimationTransformationType` membership (members 1–2). -/
def animationTransformationTypeValid (raw : Nat) : Bool := raw = 1 || raw = 2

/-- `MaterialItem.parse`: a 120-byte unpack, then the three `IntEnum`
conversions (source blend, destination blend, alpha-test function), which
raise `ValueError` outside their enumerations. -/
def materialItemParse (b : Bytes) (off : Nat) : Except Err MaterialItemS :=
  if off + 120 ≤ b.length then
    let sb := u32 b (off + 100)
    let db := u32 b (off + 104)
    let atf := u32 b (off + 108)
    if blendTypeValid sb then
      if blendTypeValid db then
        if alphaTestFunctionValid atf then
          .ok { materialFlags := u32 b off
                materialFlags2 := u32 b (off + 4)
                diffuseTextureIndex := u32 b (off + 8)
                detailTextureIndex := u32 b (off + 12)
                bumpmapTextureIndex := u32 b (off + 16)
                specularTextureIndex := u32 b (off + 20)
                emissiveTextureIndex := u32 b (off + 24)
                reflectionTextureIndex := u32 b (off + 28)
                fresnelTextureIndex := u32 b (off + 32)
                colorFieldsRaw :=
                  (List.range 16).map (fun j => u32 b (off + 36 + 4 * j))
                sourceBlend := sb
                destinationBlend := db
                alphaTestFunction := atf
                alphaTestThresholdRaw := u32 b (off + 112)
                finalAlphaMultiplyRaw := u32 b (off + 116) }
        else .error .enumError
      else .error .enumError
    else .error .enumError
  else .error .truncated

/-- The loop of `MATESection.parse`: 120-byte material items. -/
def mateLoop (b : Bytes) (stop current : Nat) :
    Except Err (List MaterialItemS) :=
  if current < stop then do
    let item ← materialItemParse b current
    let rest ← mateLoop b stop (current + 120)
    .ok (item :: rest)
  else .ok []
  termination_by stop - current
  decreasing_by omega

/-- The loop of `INDESection.parse`: 6-byte triangles (`3H`). -/
def indeLoop (b : Bytes) (stop current : Nat) :
    Except Err (List (Nat × Nat × Nat)) :=
  if current < stop then
    if current + 6 ≤ b.length then do
      let rest ← indeLoop b stop (current + 6)
      .ok ((u16 b current, u16 b (current + 2), u16 b (current + 4)) :: rest)
    else .error .truncated
  else .ok []
  termination_by stop - current
  decreasing_by omega

/-- The loop of `TRANSection.parse`: 64-byte matrices (`16f`, kept raw). -/
def tranLoop (b : Bytes) (stop current : Nat) :
    Except Err (List (List Nat)) :=
  if current < stop then
    if current + 64 ≤ b.length then do
      let rest ← tranLoop b stop (current + 64)
      .ok ((List.range 16).map (fun j => u32 b (current + 4 * j)) :: rest)
    else .error .truncated
  else .ok []
  termination_by stop - current
  decreasing_by omega

/-- The loop of `AMAPSection.parse`: 8-byte animation items (`2L`), with
the `AnimationTransformationType` conversion. -/
def amapLoop (b : Bytes) (stop current : Nat) :
    Except Err (List (Nat × Nat)) :=
  if current < stop then
    if current + 8 ≤ b.length then
      let ty := u32 b current
      if animationTransformationTypeValid ty then do
        let rest ← amapLoop b stop (current + 8)
        .ok ((ty, u32 b (current + 4)) :: rest)
      else .error .enumError
    else .error .truncated
  else .ok []
  termination_by stop - current
  decreasing_by omega

/-- The tag registry of `MDLDSection.section_types` (19 known tags). -/
inductive MDLDTag where
  | text | mate | inde | verb | tran | amap | scen | sgal | sgvl | sgjc
  | sgbr | lodt | anib | plal | refl | atto | visl | mrec | mrei
  deriving DecidableEq, Repr

/-- `header.type_id in self.section_types`: recognise the 4 ASCII bytes of
a registered tag. -/
def mdldTagOfBytes (tag : Bytes) : Option MDLDTag :=
  if tag = [0x54, 0x45, 0x58, 0x54] then some .text       -- "TEXT"
  else if tag = [0x4D, 0x41, 0x54, 0x45] then some .mate  -- "MATE"
  else if tag = [0x49, 0x4E, 0x44, 0x45] then some .inde  -- "INDE"
  else if tag = [0x56, 0x45, 0x52, 0x42] then some .verb  -- "VERB"
  else if tag = [0x54, 0x52, 0x41, 0x4E] then some .tran  -- "TRAN"
  else if tag = [0x41, 0x4D, 0x41, 0x50] then some .amap  -- "AMAP"
  else if tag = [0x53, 0x43, 0x45, 0x4E] then some .scen  -- "SCEN"
  else if tag = [0x53, 0x47, 0x41, 0x4C] then some .sgal  -- "SGAL"
  else if tag = [0x53, 0x47, 0x56, 0x4C] then some .sgvl  -- "SGVL"
  else if tag = [0x53, 0x47, 0x4A, 0x43] then some .sgjc  -- "SGJC"
  else if tag = [0x53, 0x47, 0x42, 0x52] then some .sgbr  -- "SGBR"
  else if tag = [0x4C, 0x4F, 0x44, 0x54] then some .lodt  -- "LODT"
  else if tag = [0x41, 0x4E, 0x49, 0x42] then some .anib  -- "ANIB"
  else if tag = [0x50, 0x4C, 0x41, 0x4C] then some .plal  -- "PLAL"
  else if tag = [0x52, 0x45, 0x46, 0x4C] then some .refl  -- "REFL"
  else if tag = [0x41, 0x54, 0x54, 0x4F] then some .atto  -- "ATTO"
  else if tag = [0x56, 0x49, 0x53, 0x4C] then some .visl  -- "VISL"
  else if tag = [0x4D, 0x52, 0x45, 0x43] then some .mrec  -- "MREC"
  else if tag = [0x4D, 0x52, 0x45, 0x49] then some .mrei  -- "MREI"
  else Option.none

/-- `MDLDSection.metadata_only_exclude`: `["INDE", "VERB", "TRAN", "ANIB"]`. -/
def mdldExcluded : MDLDTag → Bool
  | .inde => true
  | .verb => true
  | .tran => true
  | .anib => true
  | _ => false

/-- The decoded state of an `MDLDSection`: one slot per registered tag
(the source's per-tag attributes), plus `visited`, an instrumentation field
recording the offset at which each chunk header was read (it is not part of
the source state; it lets the chunk-traversal claims be stated). -/
structure MDLDStateS where
  visited : List Nat
  text : Option (RIFFHeaderS × List Bytes)
  mate : Option (RIFFHeaderS × List MaterialItemS)
  inde : Option (RIFFHeaderS × List (Nat × Nat × Nat))
  verb : Option RIFFHeaderS
  tran : Option (RIFFHeaderS × List (List Nat))
  amap : Option (RIFFHeaderS × List (Nat × Nat))
  scen : Option RIFFHeaderS
  sgal : Option RIFFHeaderS
  sgvl : Option RIFFHeaderS
  sgjc : Option RIFFHeaderS
  sgbr : Option RIFFHeaderS
  lodt : Option RIFFHeaderS
  anib : Option RIFFHeaderS
  plal : Option RIFFHeaderS
  refl : Option RIFFHeaderS
  atto : Option RIFFHeaderS
  visl : Option RIFFHeaderS
  mrec : Option RIFFHeaderS
  mrei : Option RIFFHeaderS
  deriving DecidableEq, Repr

/-- The empty `MDLDSection` state (all per-tag attributes `None`). -/
def mdldInitState : MDLDStateS :=
  { visited := [], text := Option.none, mate := Option.none
    inde := Option.none, verb := Option.none, tran := Option.none
    amap := Option.none, scen := Option.none, sgal := Option.none
    sgvl := Option.none, sgjc := Option.none, sgbr := Option.none
    lodt := Option.none, anib := Option.none, plal := Option.none
    refl := Option.none, atto := Option.none, visl := Option.none
    mrec := Option.none, mrei := Option.none }

/-- One iteration body of `MDLDSection.parse` after the chunk header has
been read: dispatch on the tag; a tag outside the registry is fatal.  For
the tags in `metadata_only_exclude` whose `parse` decodes a payload
(`INDE`, `TRAN`), metadata-only mode stores the freshly constructed section
(empty payload storage) without parsing; `VERB` and `ANIB` have a `pass`
parse, so skipping is indistinguishable there.  Every other registered tag
is parsed in both modes. -/
def mdldStep (metadataOnly : Bool) (b : Bytes) (h : RIFFHeaderS)
    (payloadOff : Nat) (s : MDLDStateS) : Except Err MDLDStateS :=
  match mdldTagOfBytes h.typeId with
  | Option.none => .error (.unknownChunk h.typeId)
  | some t =>
      let stop := payloadOff + h.dataSize
      match t with
      | .text => do
          let names ← textLoop b stop payloadOff
          .ok { s with text := some (h, names) }
      | .mate => do
          let items ← mateLoop b stop payloadOff
          .ok { s with mate := some (h, items) }
      | .inde =>
          if !metadataOnly then do
            let triangles ← indeLoop b stop payloadOff
            .ok { s with inde := some (h, triangles) }
          else .ok { s with inde := some (h, []) }
      | .verb => .ok { s with verb := some h }
      | .tran =>
          if !metadataOnly then do
            let matrices ← tranLoop b stop payloadOff
            .ok { s with tran := some (h, matrices) }
          else .ok { s with tran := some (h, []) }
      | .amap => do
          let items ← amapLoop b stop payloadOff
          .ok { s with amap := some (h, items) }
      | .scen => .ok { s with scen := some h }
      | .sgal => .ok { s with sgal := some h }
      | .sgvl => .ok { s with sgvl := some h }
      | .sgjc => .ok { s with sgjc := some h }
      | .sgbr => .ok { s with sgbr := some h }
      | .lodt => .ok { s with lodt := some h }
      | .anib => .ok { s with anib := some h }
      | .plal => .ok { s with plal := some h }
      | .refl => .ok { s with refl := some h }
      | .atto => .ok { s with atto := some h }
      | .visl => .ok { s with visl := some h }
      | .mrec => .ok { s with mrec := some h }
      | .mrei => .ok { s with mrei := some h }

/-- The chunk loop of `MDLDSection.parse`: read an 8-byte chunk header at
`current`, dispatch, then advance to `current + 8 + data_size` — the skip
of metadata-only mode still advances past the full declared length. -/
def mdldLoop (metadataOnly : Bool) (b : Bytes) (stop current : Nat)
    (s : MDLDStateS) : Except Err MDLDStateS :=
  if current < stop then do
    let h ← riffHeaderParse b current
    let s1 := { s with visited := s.visited ++ [current] }
    let s2 ← mdldStep metadataOnly b h (current + 8) s1
    mdldLoop metadataOnly b stop (current + 8 + h.dataSize) s2
  else .ok s
  termination_by stop - current
  decreasing_by omega

/-- `MDLDSection.parse`: the chunk loop over the section's declared
`data_size` bytes starting at `file_offset`. -/
def mdldParse (metadataOnly : Bool) (b : Bytes) (fileOffset dataSize : Nat) :
    Except Err MDLDStateS :=
  mdldLoop metadataOnly b (fileOffset + dataSize) fileOffset mdldInitState

/-- What metadata-only mode is specified to preserve: everything of the
fully decoded state except the heavy payload storage of the skipped
chunks, which stays empty. -/
def metaProject (s : MDLDStateS) : MDLDStateS :=
  { s with inde := s.inde.map (fun p => (p.1, ([] : List (Nat × Nat × Nat))))
           tran := s.tran.map (fun p => (p.1, ([] : List (List Nat)))) }

/-! ## Statement helpers and concrete inputs used by the theorems -/

/-- `Chained o l`: the records of `l` (offset/record pairs) are placed
consecutively starting at `o`, each next record at the previous record's
offset plus its self-reported `total_size`. -/
def Chained : Nat → List (Nat × SceneryRecord) → Prop
  | _, [] => True
  | o, p :: rest => p.1 = o ∧ Chained (p.1 + p.2.totalSize) rest

/-- A 56-byte BGL header whose magic fields hold the expected constants and
whose 64-bit timestamp field holds `10^19` (`0x8AC7230489E80000`,
little-endian), a value whose 1601-based interpretation overflows Python's
date range. -/
def overflowTimestampHeaderBytes : Bytes :=
  [0x01, 0x02, 0x92, 0x19] ++ [0, 0, 0, 0] ++
    [0x00, 0x00, 0xE8, 0x89, 0x04, 0x23, 0xC7, 0x8A] ++
    [0x03, 0x18, 0x05, 0x08] ++ [0, 0, 0, 0] ++ List.replicate 32 0

/-- A 24-byte model-data record slot declaring the embedded MDL byte range
`[100, 150)`, far past the end of the buffer itself. -/
def mdlRangeOOBRecordBytes : Bytes :=
  List.replicate 16 0 ++ [100, 0, 0, 0] ++ [50, 0, 0, 0]

/-- A 16-byte model-data subsection header declaring one record at offset
16 — a record slot lying entirely past the end of the 16-byte buffer. -/
def truncatedSlotSubsectionBytes : Bytes :=
  [0, 0, 0, 0] ++ [1, 0, 0, 0] ++ [16, 0, 0, 0] ++ [0, 0, 0, 0]

/-- A well-formed FSX attached-object tail: open tag `0x1002`,
start-delimiter size 4, payload type `0x0B` (library object), declared
attached size 66, name offset 64, zero biases/instance, a 20-byte library
object payload, an empty word-aligned attach-point name, and the closing
delimiter `{0x1003, 4}` at offset `4 + 66 = 70`. -/
def attachedOkFSXBytes : Bytes :=
  [0x02, 0x10, 0x04, 0x00, 0x0B, 0x00, 0x42, 0x00,
   0x40, 0x00, 0x00, 0x00, 0x00, 0x00, 0x00, 0x00] ++
    List.replicate 12 0 ++ List.replicate 16 0 ++ [0, 0, 0, 0] ++
    List.replicate 20 0 ++ [0, 0] ++ [0x03, 0x10, 0x04, 0x00]

/-- The same tail as `attachedOkFSXBytes` with the closing delimiter id
replaced by `0x1002` — the value the spec claims the FSX family requires. -/
def attachedBadFSXBytes : Bytes :=
  [0x02, 0x10, 0x04, 0x00, 0x0B, 0x00, 0x42, 0x00,
   0x40, 0x00, 0x00, 0x00, 0x00, 0x00, 0x00, 0x00] ++
    List.replicate 12 0 ++ List.replicate 16 0 ++ [0, 0, 0, 0] ++
    List.replicate 20 0 ++ [0, 0] ++ [0x02, 0x10, 0x04, 0x00]

/-- The decoded value of `attachedOkFSXBytes`. -/
def attachedOkValue : AttachedObjectS :=
  { id := 0x1002
    startDelimiterSize := 4
    objectTypeId := 0x0B
    attachedObjectDataSize := 66
    attachPointStringRelativeOffset := 64
    pitchRaw := 0
    bankRaw := 0
    hdgRaw := 0
    biasXRaw := 0
    biasYRaw := 0
    biasZRaw := 0
    instanceId := some (List.replicate 16 0)
    probability := some 0
    randomness := some 0
    objData := .libraryObject { uuidBytes := List.replicate 16 0, scaleRaw := 0 }
    attachPointName := []
    closingDelimiterId := 0x1003
    closingDelimiterSize := 4 }

/-- A scenery-object record stream: an FSX library-object placement with
header-declared size 64 and a 74-byte attached tail (total 138 bytes),
followed immediately at offset 138 by an FSX generic-building record with
declared size 44. -/
def sceneryStreamBytes : Bytes :=
  [0x0B, 0x00, 0x40, 0x00] ++ List.replicate 24 0 ++
    List.replicate 16 0 ++ List.replicate 20 0 ++
    attachedOkFSXBytes ++
    ([0x0A, 0x00, 0x2C, 0x00] ++ List.replicate 24 0 ++ List.replicate 16 0)

/-- The header of the first record of `sceneryStreamBytes`. -/
def streamFirstHeader : SceneryHeaderS :=
  { id := 0x0B, size := 64, lonRaw := 0, latRaw := 0, altRaw := 0
    isAboveAgl := false, noAutogenSuppression := false, noCrash := false
    noFog := false, noShadow := false, noZWrite := false, noZTest := false
    pitchRaw := 0, bankRaw := 0, hdgRaw := 0, imageComplexity := 0
    unknown := 0, instanceId := some (List.replicate 16 0) }

/-- The first record of `sceneryStreamBytes`: the placement with its tail. -/
def streamFirstRecord : LibraryObjectS :=
  { header := streamFirstHeader
    objInfo := { uuidBytes := List.replicate 16 0, scaleRaw := 0 }
    attached := some attachedOkValue }

/-- The header of the second record of `sceneryStreamBytes`. -/
def streamSecondHeader : SceneryHeaderS :=
  { id := 0x0A, size := 44, lonRaw := 0, latRaw := 0, altRaw := 0
    isAboveAgl := false, noAutogenSuppression := false, noCrash := false
    noFog := false, noShadow := false, noZWrite := false, noZTest := false
    pitchRaw := 0, bankRaw := 0, hdgRaw := 0, imageComplexity := 0
    unknown := 0, instanceId := some (List.replicate 16 0) }

/-- An MDL data-chunk payload: an `INDE` chunk with one triangle `(1,2,3)`
followed by a `TEXT` chunk with one 64-byte texture-name slot (`"X"`).
86 bytes in total. -/
def mdldChunkBytes : Bytes :=
  ([0x49, 0x4E, 0x44, 0x45, 6, 0, 0, 0] ++ [1, 0, 2, 0, 3, 0]) ++
    ([0x54, 0x45, 0x58, 0x54, 64, 0, 0, 0] ++ [0x58] ++ List.replicate 63 0)

/-- The fully decoded state of `mdldChunkBytes`. -/
def mdldChunkFullState : MDLDStateS :=
  { mdldInitState with
      visited := [0, 14]
      inde := some ({ typeId := [0x49, 0x4E, 0x44, 0x45], dataSize := 6 },
        [(1, 2, 3)])
      text := some ({ typeId := [0x54, 0x45, 0x58, 0x54], dataSize := 64 },
        [[0x58]]) }

/-! ## General lemmas -/

theorem ok_bind {α β : Type} (a : α) (f : α → Except Err β) :
    (Except.ok a >>= f : Except Err β) = f a := rfl

theorem error_bind {α β : Type} (e : Err) (f : α → Except Err β) :
    (Except.error e >>= f : Except Err β) = .error e := rfl

theorem bind_eq_ok {α β : Type} {e : Except Err α} {f : α → Except Err β}
    {v : β} : (e >>= f) = .ok v ↔ ∃ a, e = .ok a ∧ f a = .ok v := by
  cases e <;> simp [ok_bind, error_bind]

theorem pySlice_length (b : Bytes) (s t : Nat) :
    (pySlice b s t).length = min t b.length - s := by
  simp [pySlice]

/-! ## C6 : decode_half_float -/

/--
C6 (counterexample): the claim states that `decode_half_float` maps `0x3C00`
to the 32-bit float value `1.0`, the expansion being bit-reinterpreted as a
float rather than returned as the raw integer pattern.  In the source,
`half_float_2_float` returns the raw integer bit pattern: at `0x3C00` the
returned value is the integer `0x3F800000 = 1065353216`, which is not the
numeric value `1`.
-/
theorem c6_half_float_counterexample :
    halfFloat2Float 0x3C00 = 0x3F800000 ∧ halfFloat2Float 0x3C00 ≠ 1 := by
  decide

/--
C6 (amended): `half_float_2_float` maps `0x3C00` to `0x3F800000`, `0x0000`
to `0`, `0x7C00` to `0x7F800000` and `0xFC00` to `0xFF800000` — the
half-to-single expansions as raw 32-bit integer bit patterns; the function
performs no bit-reinterpretation into a float.
-/
theorem c6_half_float_bit_patterns :
    halfFloat2Float 0x3C00 = 0x3F800000 ∧ halfFloat2Float 0x0000 = 0 ∧
    halfFloat2Float 0x7C00 = 0x7F800000 ∧
    halfFloat2Float 0xFC00 = 0xFF800000 := by
  decide

/-! ## C7 : read_word_aligned_cstring -/

/-- The loop of `read_stringz_word_aligned` only returns at an odd index,
so the returned consumed count is always even. -/
theorem rswaLoop_ok_even :
    ∀ (b : Bytes) (i : Nat) (t : Bool) (acc : Bytes) (n : Nat) (s : Bytes),
      rswaLoop b i t acc = .ok (n, s) → n % 2 = 0 := by
  intro b
  induction b with
  | nil => intro i t acc n s h; simp [rswaLoop] at h
  | cons v rest ih =>
      intro i t acc n s h
      simp only [rswaLoop] at h
      split at h
      · rename_i hcond
        obtain ⟨h1, _⟩ := Prod.mk.injEq .. ▸ Except.ok.inj h
        have : i % 2 = 1 := by
          have := (Bool.and_eq_true _ _).mp hcond |>.1
          simpa using this
        omega
      · exact ih _ _ _ _ _ h

/--
C7 (counterexample): the claim states that `read_word_aligned_cstring`
returns `(4, "AB")` on `b"AB\x00"` followed by more bytes.  When the byte
after the terminator is nonzero it is consumed *and kept in the returned
text*: on `b"AB\x00C"` the source returns `(4, "AB\x00C")` (`strip('\x00')`
removes only leading/trailing zero bytes), not `(4, "AB")`.
-/
theorem c7_word_aligned_cstring_counterexample :
    readStringzWordAligned [65, 66, 0, 67] = .ok (4, [65, 66, 0, 67]) ∧
    ([65, 66, 0, 67] : Bytes) ≠ [65, 66] := by
  decide

/--
C7 (amended): `read_stringz_word_aligned` consumes bytes up to and
including the first zero byte, plus one further byte when the count
consumed so far is odd — provided those bytes exist, reading past the
buffer end is an `IndexError`, as on exactly `b"AB\x00"` — so the returned
consumed count is always even and includes the terminator and any padding
byte.  It returns `(4, "AB")` on `b"AB\x00\x00"` and `(2, "A")` on
`b"A\x00"`; on `b"AB\x00"` followed by more bytes it consumes 4 bytes, but
the fourth byte is part of the returned text whenever it is nonzero (the
text is the 4 consumed bytes with zero bytes stripped from both ends).
-/
theorem c7_word_aligned_cstring_amended :
    (∀ (b : Bytes) (n : Nat) (s : Bytes),
        readStringzWordAligned b = .ok (n, s) → n % 2 = 0) ∧
    readStringzWordAligned [65, 66, 0, 0] = .ok (4, [65, 66]) ∧
    readStringzWordAligned [65, 0] = .ok (2, [65]) ∧
    readStringzWordAligned [65, 66, 0] = .error .indexError ∧
    (∀ (v : Nat) (rest : Bytes), v < 0x80 →
        readStringzWordAligned (65 :: 66 :: 0 :: v :: rest) =
          .ok (4, stripZeros [65, 66, 0, v])) := by
  refine ⟨?_, by decide, by decide, by decide, ?_⟩
  · intro b n s h
    simp only [readStringzWordAligned, bind, Except.bind] at h
    rcases h1 : rswaLoop b 0 false [] with e | ⟨m, raw⟩ <;> rw [h1] at h <;>
      dsimp only at h
    · simp at h
    · rcases h2 : stringz2Ascii raw with e | s' <;> rw [h2] at h
      · simp at h
      · obtain ⟨hm, -⟩ := Prod.mk.injEq .. ▸ Except.ok.inj h
        exact hm ▸ rswaLoop_ok_even b 0 false [] m raw h1
  · intro v rest hv
    simp [readStringzWordAligned, rswaLoop, stringz2Ascii, hv, ok_bind,
      List.forall_mem_cons]

/--
C7 (witness): the amended theorem applied at concrete inputs: the even
consumed count at `b"AB\x00\x00"`, and the `b"AB\x00C"` case.
-/
theorem c7_word_aligned_cstring_witness :
    4 % 2 = 0 ∧
    readStringzWordAligned [65, 66, 0, 67] =
      .ok (4, stripZeros [65, 66, 0, 67]) :=
  ⟨c7_word_aligned_cstring_amended.1 [65, 66, 0, 0] 4 [65, 66] (by decide),
   c7_word_aligned_cstring_amended.2.2.2.2 67 [] (by decide)⟩

/-! ## C2 : BGL header magic numbers -/

/--
C2 (counterexample): the claim states that BGL header decoding fails
whenever either decoded magic u32 differs from its expected constant.
`BGLHeader.parse` stores the decoded fields without comparing them against
anything: a 56-byte all-zero buffer decodes successfully with both magic
fields equal to 0.
-/
theorem c2_header_magic_counterexample :
    ∃ h, bglHeaderParse (List.replicate 56 0) 0 = .ok h ∧
      h.magicNumber1 ≠ 0x19920201 ∧ h.magicNumber2 ≠ 0x08051803 :=
  ⟨{ magicNumber1 := 0, headerSize := 0, filetime := .from1601 0,
     magicNumber2 := 0, sectionsCount := 0, qmidSlots := List.replicate 8 0 },
   by decide, by decide, by decide⟩

/--
C2 (amended): `BGLHeader.parse` performs no validation of the magic
constants: decoding succeeds for every buffer holding at least the 56
header bytes, whatever the two magic fields contain (they are stored
verbatim); the expected constants appear only as constructor defaults.
-/
theorem c2_header_no_magic_validation :
    ∀ (b : Bytes) (off : Nat), off + 56 ≤ b.length →
      ∃ h, bglHeaderParse b off = .ok h ∧
        h.magicNumber1 = u32 b off ∧ h.magicNumber2 = u32 b (off + 16) := by
  intro b off hlen
  rw [bglHeaderParse, if_pos hlen]
  exact ⟨_, rfl, rfl, rfl⟩

/--
C2 (witness): the amended theorem applied to the all-zero 56-byte buffer.
-/
theorem c2_header_no_magic_validation_witness :
    ∃ h, bglHeaderParse (List.replicate 56 0) 0 = .ok h ∧
      h.magicNumber1 = u32 (List.replicate 56 0) 0 ∧
      h.magicNumber2 = u32 (List.replicate 56 0) 16 :=
  c2_header_no_magic_validation (List.replicate 56 0) 0 (by decide)

/-! ## C5 : timestamp overflow fallback -/

/--
C5 (code bug, evaluation at the failing input): for the raw timestamp value
`10^19`, the 1601-based interpretation overflows (`10^19 / 10` microseconds
exceeds the representable range), and the source's own comment says the
value is then "encoded as a nanoseconds epoch timestamp" — which would mean
1970-01-01 plus `raw / 1000` microseconds, as the claim states.  The code
instead computes `int(int(raw / 10) / 1000)` and passes it as microseconds,
yielding 1970-01-01 plus `raw / 10000` microseconds: at `raw = 10^19` the
decoded value is `10^15` microseconds past 1970 (2001-09-09), not the
`10^16` microseconds (2286-11-20) that the nanoseconds reading gives.
Header decoding does not raise in either reading.
-/
theorem c5_timestamp_fallback_eval :
    (10000000000000000000 : Nat) / 10 > max1601Microseconds ∧
    (∃ h, bglHeaderParse overflowTimestampHeaderBytes 0 = .ok h ∧
      h.magicNumber1 = 0x19920201 ∧ h.magicNumber2 = 0x08051803 ∧
      h.filetime = .from1970 1000000000000000) ∧
    FiletimeRepr.from1970 1000000000000000 ≠
      .from1970 (10000000000000000000 / 1000) := by
  refine ⟨by decide,
    ⟨{ magicNumber1 := 0x19920201, headerSize := 0,
       filetime := .from1970 1000000000000000, magicNumber2 := 0x08051803,
       sectionsCount := 0, qmidSlots := List.replicate 8 0 },
     by decide, by decide, by decide, by decide⟩, by decide⟩

/-! ## C4 : model-data records and the skip policy -/

/-- With `skip_invalid` set, the model-data record loop never fails: every
failing record is skipped. -/
theorem modelDataRecordsLoop_skip_ok :
    ∀ (n : Nat) (b : Bytes) (base i : Nat),
      ∃ l, modelDataRecordsLoop true b base i n = .ok l := by
  intro n
  induction n with
  | zero => exact fun b base i => ⟨[], rfl⟩
  | succ n ih =>
      intro b base i
      obtain ⟨l, hl⟩ := ih b base (i + 1)
      simp only [modelDataRecordsLoop]
      cases h : modelDataRecordParse b (base + i * 24) with
      | ok r => exact ⟨r :: l, by simp [hl, ok_bind]⟩
      | error e => exact ⟨l, by simp [hl]⟩

/--
C4 (counterexample): the claim states that a model-data record whose
declared byte range extends past the end of the container fails with
Truncated-Input.  `ModelDataRecord.parse` slices
`bgl_file_data[mdl_offset : mdl_offset + mdl_length]`, and Python slicing
clamps at the buffer bounds: on a 24-byte buffer declaring the range
`[100, 150)`, decoding succeeds and silently yields an empty blob.
-/
theorem c4_model_data_record_counterexample :
    ∃ rec, modelDataRecordParse mdlRangeOOBRecordBytes 0 = .ok rec ∧
      mdlRangeOOBRecordBytes.length < rec.mdlFileOffset + rec.mdlFileLength ∧
      rec.mdlData = [] :=
  ⟨{ uuidBytes := List.replicate 16 0, mdlFileOffset := 100,
     mdlFileLength := 50, mdlData := [] }, by decide, by decide, by decide⟩

/--
C4 (amended): a model-data record fails (with Truncated-Input) exactly when
its own 24-byte slot extends past the buffer; a declared embedded-MDL byte
range past the end of the container does not fail — the blob is silently
clamped to the available bytes.  Whether a failing record is skipped
(continuing with the next) or aborts the whole subsection is selected by
the caller-configurable `skip_invalid` policy (constructor default `True`):
with it set the subsection never fails once its header decodes, without it
the first failing record aborts, as the concrete subsection shows.
-/
theorem c4_model_data_amended :
    (∀ (b : Bytes) (off : Nat), b.length < off + 24 →
        modelDataRecordParse b off = .error .truncated) ∧
    (∀ (b : Bytes) (off : Nat), off + 24 ≤ b.length →
        ∃ rec, modelDataRecordParse b off = .ok rec ∧
          rec.mdlData =
            pySlice b (u32 b (off + 16))
              (u32 b (off + 16) + u32 b (off + 20))) ∧
    (∀ (b : Bytes) (off : Nat) (hdr : SubSectionHeaderS),
        standardSubSectionHeaderParse b off = .ok hdr →
        ∃ recs, modelDataSubSectionParse true b off = .ok (hdr, recs)) ∧
    modelDataSubSectionParse false truncatedSlotSubsectionBytes 0 =
      .error .truncated ∧
    modelDataSubSectionParse true truncatedSlotSubsectionBytes 0 =
      .ok ({ qmidA := 0, recordsNumber := 1, firstRecordFileOffset := 16,
             subsectionDataSize := 0 }, []) := by
  refine ⟨?_, ?_, ?_, by decide, by decide⟩
  · intro b off h
    rw [modelDataRecordParse, if_neg (by omega)]
  · intro b off h
    rw [modelDataRecordParse, if_pos h]
    exact ⟨_, rfl, rfl⟩
  · intro b off hdr hh
    obtain ⟨recs, hrecs⟩ :=
      modelDataRecordsLoop_skip_ok hdr.recordsNumber b
        hdr.firstRecordFileOffset 0
    refine ⟨recs, ?_⟩
    simp [modelDataSubSectionParse, hh, ok_bind, hrecs]

/--
C4 (witness): the amended theorem applied at concrete inputs: the empty
buffer (slot truncation), a 24-byte zero buffer (in-bounds slot), and the
one-record subsection whose record slot is out of bounds.
-/
theorem c4_model_data_witness :
    modelDataRecordParse [] 0 = .error .truncated ∧
    (∃ rec, modelDataRecordParse (List.replicate 24 0) 0 = .ok rec ∧
      rec.mdlData =
        pySlice (List.replicate 24 0) (u32 (List.replicate 24 0) 16)
          (u32 (List.replicate 24 0) 16 + u32 (List.replicate 24 0) 20)) ∧
    (∃ recs, modelDataSubSectionParse true truncatedSlotSubsectionBytes 0 =
      .ok ({ qmidA := 0, recordsNumber := 1, firstRecordFileOffset := 16,
             subsectionDataSize := 0 }, recs)) :=
  ⟨c4_model_data_amended.1 [] 0 (by decide),
   c4_model_data_amended.2.1 (List.replicate 24 0) 0 (by decide),
   c4_model_data_amended.2.2.1 truncatedSlotSubsectionBytes 0 _ (by decide)⟩

/-! ## C9 : sections with no assigned subsection decoder -/

/--
C9 (counterexample): the claim states that a section whose type is present
in the mapping with no assigned decoder yields zero subsections without
error for every declared subsection count.  `BGLSection.parse` calls
`subsection_class()` inside the loop, so with the COPYRIGHT tag (mapped to
`None`) and one declared subsection the decode raises `TypeError`
(`None` is not callable) instead of succeeding.
-/
theorem c9_unassigned_section_counterexample :
    subsectionsMapping .copyright = Option.none ∧
    bglSectionParseFrom .copyright 0 1 0 [] = .error .noneNotCallable := by
  exact ⟨rfl, rfl⟩

/--
C9 (amended): for a section type present in the mapping with no assigned
decoder, decoding yields zero subsections without error exactly when the
declared subsection count is 0; for any positive count it fails
(`None` is not callable) at the first loop iteration.
-/
theorem c9_unassigned_section_amended :
    ∀ (ty : BGLSectionType), subsectionsMapping ty = Option.none →
      ∀ (raw count start : Nat) (b : Bytes),
        (count = 0 → bglSectionParseFrom ty raw count start b = .ok []) ∧
        (0 < count →
          bglSectionParseFrom ty raw count start b =
            .error .noneNotCallable) := by
  intro ty hty raw count start b
  constructor
  · rintro rfl
    simp [bglSectionParseFrom, hty, bglSubsectionsLoop]
  · intro hc
    obtain ⟨n, rfl⟩ : ∃ n, count = n + 1 := ⟨count - 1, by omega⟩
    simp [bglSectionParseFrom, hty, bglSubsectionsLoop]

/--
C9 (witness): the amended theorem applied to the NONE and COPYRIGHT tags,
with counts 0 and 3.
-/
theorem c9_unassigned_section_witness :
    bglSectionParseFrom BGLSectionType.none 0 0 5 [] = .ok [] ∧
    bglSectionParseFrom .copyright 0 3 7 [1, 2, 3] =
      .error .noneNotCallable :=
  ⟨(c9_unassigned_section_amended BGLSectionType.none rfl 0 0 5 []).1 rfl,
   (c9_unassigned_section_amended .copyright rfl 0 3 7 [1, 2, 3]).2
     (by decide)⟩

/-! ## C1 : attached-object closing delimiter -/

theorem pure_eq_ok {α : Type} (a : α) : (pure a : Except Err α) = .ok a := rfl

/-- Inversion of a successful attached-object decode: the stored
start-delimiter size and attached size are the two u16 fields read at
offsets 2 and 6, the stored closing id is the u16 read at the record start
plus those two sizes, and it equals the family's constant. -/
theorem attachedObjectParse_ok :
    ∀ (fam : Family) (b : Bytes) (off : Nat) (a : AttachedObjectS),
      attachedObjectParse fam b off = .ok a →
      a.startDelimiterSize = u16 b (off + 2) ∧
      a.attachedObjectDataSize = u16 b (off + 6) ∧
      a.closingDelimiterId =
        u16 b (off + a.startDelimiterSize + a.attachedObjectDataSize) ∧
      a.closingDelimiterId = attachedClosingDelimiterId fam := by
  intro fam b off a h
  simp only [attachedObjectParse] at h
  split at h
  case isFalse => simp at h
  case isTrue =>
    split at h
    case isTrue =>
      obtain ⟨info, hi, h⟩ := bind_eq_ok.mp h
      obtain ⟨y, hy, h⟩ := bind_eq_ok.mp h
      obtain ⟨⟨n0, name⟩, hn, h⟩ := bind_eq_ok.mp h
      dsimp only at h
      split at h
      case isFalse => simp at h
      case isTrue =>
        split at h
        case isFalse => simp at h
        case isTrue hclose =>
          cases Except.ok.inj h
          exact ⟨rfl, rfl, rfl, hclose⟩
    case isFalse =>
      split at h
      case isFalse => simp [error_bind] at h
      case isTrue =>
        obtain ⟨bc, hbc, h⟩ := bind_eq_ok.mp h
        obtain ⟨y, hy, h⟩ := bind_eq_ok.mp h
        obtain ⟨⟨n0, name⟩, hn, h⟩ := bind_eq_ok.mp h
        dsimp only at h
        split at h
        case isFalse => simp at h
        case isTrue =>
          split at h
          case isFalse => simp at h
          case isTrue hclose =>
            cases Except.ok.inj h
            exact ⟨rfl, rfl, rfl, hclose⟩

/--
C1 (counterexample): the claim states that the closing delimiter id of an
FSX attached object must equal `0x1002` (and decoding fails otherwise).
The source compares it against `0x1003` (`0x1002` is the *opening* tag that
announces the tail): a tail whose closing id is `0x1003` — different from
the claim's constant — decodes successfully, and its decoded closing id is
not `0x1002`.
-/
theorem c1_closing_delimiter_counterexample :
    attachedObjectParse .fsx attachedOkFSXBytes 0 = .ok attachedOkValue ∧
    attachedOkValue.closingDelimiterId ≠ 0x1002 := by
  constructor
  · decide
  · decide

/--
C1 (amended): the 2-field closing delimiter of an attached-object tail is
read at the record start plus the start-delimiter-size field plus the
declared attached size, and must equal the record-family-specific constant
`0x1001` for the FS9 family and `0x1003` for the FSX family: every
successful decode carries that id (both as the stored field and as the u16
read at that position), and a tail whose id there differs fails with the
delimiter-mismatch (Integrity-Violation) error, as the concrete FSX tail
with closing id `0x1002` shows.
-/
theorem c1_closing_delimiter_amended :
    (∀ (fam : Family) (b : Bytes) (off : Nat) (a : AttachedObjectS),
        attachedObjectParse fam b off = .ok a →
        a.closingDelimiterId = attachedClosingDelimiterId fam ∧
        u16 b (off + a.startDelimiterSize + a.attachedObjectDataSize) =
          attachedClosingDelimiterId fam) ∧
    attachedObjectParse .fsx attachedBadFSXBytes 0 =
      .error (.delimiterMismatch 0x1002) ∧
    attachedClosingDelimiterId .fs9 = 0x1001 ∧
    attachedClosingDelimiterId .fsx = 0x1003 := by
  refine ⟨?_, by decide, rfl, rfl⟩
  intro fam b off a h
  obtain ⟨-, -, h3, h4⟩ := attachedObjectParse_ok fam b off a h
  exact ⟨h4, h3 ▸ h4⟩

/--
C1 (witness): the amended theorem applied to the well-formed FSX tail.
-/
theorem c1_closing_delimiter_witness :
    attachedOkValue.closingDelimiterId = attachedClosingDelimiterId .fsx ∧
    u16 attachedOkFSXBytes
        (0 + attachedOkValue.startDelimiterSize +
          attachedOkValue.attachedObjectDataSize) =
      attachedClosingDelimiterId .fsx :=
  c1_closing_delimiter_amended.1 .fsx attachedOkFSXBytes 0 attachedOkValue
    (by decide)

/-! ## C10 : peek at end of buffer -/

/--
C10 (confirmed): when a library-object placement's fixed object-info block
ends exactly at the end of the buffer, the 2-byte peek is an empty slice,
and the record decodes successfully with no attached object.
-/
theorem c10_peek_at_end_no_attached :
    ∀ (fam : Family) (b : Bytes) (off : Nat) (h : SceneryHeaderS),
      sceneryHeaderParse fam b off = .ok h →
      b.length = off + sceneryHeaderSize fam + 20 →
      libraryObjectParse fam b off =
        .ok { header := h
              objInfo :=
                { uuidBytes :=
                    pySlice b (off + sceneryHeaderSize fam)
                      (off + sceneryHeaderSize fam + 16)
                  scaleRaw := u32 b (off + sceneryHeaderSize fam + 16) }
              attached := none } := by
  intro fam b off h hh hlen
  have hhdr : 28 ≤ sceneryHeaderSize fam := by cases fam <;> decide
  simp only [libraryObjectParse, hh, ok_bind]
  rw [if_pos (by omega)]
  simp only [libraryObjectInfoParse]
  rw [if_pos (by omega), ok_bind]
  rw [if_pos (by rw [pySlice_length]; omega)]

/--
C10 (witness): the theorem applied to a 48-byte all-zero buffer decoded as
an FS9 placement: the 28-byte header plus the 20-byte object-info block end
exactly at the buffer end, and decoding succeeds with no attached object.
-/
theorem c10_peek_at_end_witness :
    libraryObjectParse .fs9 (List.replicate 48 0) 0 =
      .ok { header :=
              { id := 0, size := 0, lonRaw := 0, latRaw := 0, altRaw := 0
                isAboveAgl := false, noAutogenSuppression := false
                noCrash := false, noFog := false, noShadow := false
                noZWrite := false, noZTest := false, pitchRaw := 0
                bankRaw := 0, hdgRaw := 0, imageComplexity := 0
                unknown := 0, instanceId := none }
            objInfo :=
              { uuidBytes :=
                  pySlice (List.replicate 48 0) (0 + sceneryHeaderSize .fs9)
                    (0 + sceneryHeaderSize .fs9 + 16)
                scaleRaw :=
                  u32 (List.replicate 48 0) (0 + sceneryHeaderSize .fs9 + 16) }
            attached := none } :=
  c10_peek_at_end_no_attached .fs9 (List.replicate 48 0) 0 _ (by decide)
    (by decide)

/-! ## C3 : stream advancement by self-reported size -/

/-- Inversion of a successful library-object decode carrying a tail: the
peeked 2 bytes after the object-info block equal the family's open tag and
the tail was decoded there. -/
theorem libraryObjectParse_attached :
    ∀ (fam : Family) (b : Bytes) (off : Nat) (r : LibraryObjectS),
      libraryObjectParse fam b off = .ok r →
      ∀ a, r.attached = some a →
        u16 b (off + sceneryHeaderSize fam + 20) =
          attachedOpenDelimiterId fam ∧
        attachedObjectParse fam b (off + sceneryHeaderSize fam + 20) =
          .ok a := by
  intro fam b off r hok a ha
  simp only [libraryObjectParse] at hok
  obtain ⟨h, hh, hok⟩ := bind_eq_ok.mp hok
  split at hok
  case isFalse => simp at hok
  case isTrue =>
    obtain ⟨oi, hoi, hok⟩ := bind_eq_ok.mp hok
    split at hok
    · cases Except.ok.inj hok
      simp at ha
    · split at hok
      · split at hok
        case isTrue hopen =>
          obtain ⟨aTail, hTail, hok⟩ := bind_eq_ok.mp hok
          cases Except.ok.inj hok
          have haT : aTail = a := by simpa using ha
          subst haT
          exact ⟨hopen, hTail⟩
        case isFalse =>
          cases Except.ok.inj hok
          simp at ha
      · simp at hok

/-- A successfully decoded attached tail has a positive total size: its
closing delimiter was validated against the family's closing constant,
which differs from the open tag that announced the tail, so the two sizes
cannot both be zero. -/
theorem attachedTotalSize_pos :
    ∀ (fam : Family) (b : Bytes) (off : Nat) (a : AttachedObjectS),
      u16 b off = attachedOpenDelimiterId fam →
      attachedObjectParse fam b off = .ok a →
      0 < attachedTotalSize a := by
  intro fam b off a hopen hok
  obtain ⟨h1, h2, h3, h4⟩ := attachedObjectParse_ok fam b off a hok
  rcases Nat.eq_zero_or_pos (attachedTotalSize a) with hz | hp
  · exfalso
    have hsds : a.startDelimiterSize = 0 := by
      unfold attachedTotalSize at hz; omega
    have haods : a.attachedObjectDataSize = 0 := by
      unfold attachedTotalSize at hz; omega
    rw [hsds, haods] at h3
    simp only [Nat.add_zero] at h3
    rw [h4, hopen] at h3
    cases fam <;> simp [attachedOpenDelimiterId, attachedClosingDelimiterId]
      at h3
  · exact hp

/--
C3 (confirmed): after decoding record `i` at offset `o`, the next record of
a scenery-object stream is decoded at `o` plus record `i`'s self-reported
`total_size` (`Chained`), for every stream of records of known types until
the declared count is satisfied; and for a library-object placement with an
attached tail the self-reported size is the header-declared record size
plus the tail's total size, which strictly exceeds the raw size field read
from the 4-byte record header.
-/
theorem c3_stream_advances_by_total_size :
    (∀ (b : Bytes) (off count : Nat) (l : List (Nat × SceneryRecord)),
        sceneryRecordsLoop b off count = .ok l → Chained off l) ∧
    (∀ (fam : Family) (b : Bytes) (off : Nat) (r : LibraryObjectS)
        (a : AttachedObjectS),
        libraryObjectParse fam b off = .ok r → r.attached = some a →
        libraryObjectTotalSize r = r.header.size + attachedTotalSize a ∧
        r.header.size < libraryObjectTotalSize r) := by
  constructor
  · intro b off count
    induction count generalizing off with
    | zero =>
        intro l hl
        cases Except.ok.inj hl
        trivial
    | succ n ih =>
        intro l hl
        simp only [sceneryRecordsLoop] at hl
        split at hl
        case isFalse => simp at hl
        case isTrue =>
          split at hl
          · simp at hl
          · obtain ⟨r, hr, hl⟩ := bind_eq_ok.mp hl
            obtain ⟨rest, hrest, hl⟩ := bind_eq_ok.mp hl
            cases Except.ok.inj hl
            exact ⟨rfl, ih _ _ hrest⟩
  · intro fam b off r a hok ha
    obtain ⟨hopen, hTail⟩ :=
      libraryObjectParse_attached fam b off r hok a ha
    have hpos := attachedTotalSize_pos fam b _ a hopen hTail
    constructor
    · simp [libraryObjectTotalSize, ha]
    · simp only [libraryObjectTotalSize, ha]
      omega

/--
C3 (witness): the theorem applied to `sceneryStreamBytes`: the two records
decode at offsets 0 and 138 = 0 + 64 + 74 (header-declared size 64 plus the
attached tail's 74 bytes), and the placement's total size 138 strictly
exceeds its raw header size field 64.
-/
theorem c3_stream_advances_witness :
    Chained 0 [(0, .libraryObject .fsx streamFirstRecord),
               (138, .genericBuilding .fsx streamSecondHeader)] ∧
    libraryObjectTotalSize streamFirstRecord =
      streamFirstRecord.header.size + attachedTotalSize attachedOkValue ∧
    streamFirstRecord.header.size <
      libraryObjectTotalSize streamFirstRecord :=
  ⟨c3_stream_advances_by_total_size.1 sceneryStreamBytes 0 2 _ (by decide),
   (c3_stream_advances_by_total_size.2 .fsx sceneryStreamBytes 0
      streamFirstRecord attachedOkValue (by decide) (by decide)).1,
   (c3_stream_advances_by_total_size.2 .fsx sceneryStreamBytes 0
      streamFirstRecord attachedOkValue (by decide) (by decide)).2⟩

/-! ## C8 : metadata-only MDL decoding -/

/-- One chunk step commutes with the metadata projection: if the full
decode of a chunk succeeds, the metadata-only decode of the same chunk
succeeds on the projected state and yields the projected result. -/
theorem mdldStep_meta :
    ∀ (b : Bytes) (h : RIFFHeaderS) (off : Nat) (s sOut : MDLDStateS),
      mdldStep false b h off s = .ok sOut →
      mdldStep true b h off (metaProject s) = .ok (metaProject sOut) := by
  intro b h off s sOut hstep
  simp only [mdldStep] at hstep ⊢
  cases htag : mdldTagOfBytes h.typeId with
  | none => rw [htag] at hstep; simp at hstep
  | some t =>
      rw [htag] at hstep
      cases t <;> dsimp only at hstep ⊢
      case text =>
        obtain ⟨x, hx, hc⟩ := bind_eq_ok.mp hstep
        cases Except.ok.inj hc
        rw [hx, ok_bind]
        rfl
      case mate =>
        obtain ⟨x, hx, hc⟩ := bind_eq_ok.mp hstep
        cases Except.ok.inj hc
        rw [hx, ok_bind]
        rfl
      case amap =>
        obtain ⟨x, hx, hc⟩ := bind_eq_ok.mp hstep
        cases Except.ok.inj hc
        rw [hx, ok_bind]
        rfl
      case inde =>
        rw [if_pos (by simp)] at hstep
        obtain ⟨x, hx, hc⟩ := bind_eq_ok.mp hstep
        cases Except.ok.inj hc
        rw [if_neg (by simp)]
        rfl
      case tran =>
        rw [if_pos (by simp)] at hstep
        obtain ⟨x, hx, hc⟩ := bind_eq_ok.mp hstep
        cases Except.ok.inj hc
        rw [if_neg (by simp)]
        rfl
      all_goals cases Except.ok.inj hstep; rfl

/-- The chunk loop commutes with the metadata projection. -/
theorem mdldLoop_meta :
    ∀ (fuel : Nat) (b : Bytes) (stop current : Nat) (s sOut : MDLDStateS),
      stop - current ≤ fuel →
      mdldLoop false b stop current s = .ok sOut →
      mdldLoop true b stop current (metaProject s) =
        .ok (metaProject sOut) := by
  intro fuel
  induction fuel with
  | zero =>
      intro b stop current s sOut hf h
      rw [mdldLoop.eq_def] at h ⊢
      rw [if_neg (by omega)] at h ⊢
      cases Except.ok.inj h
      rfl
  | succ n ih =>
      intro b stop current s sOut hf h
      rw [mdldLoop.eq_def] at h ⊢
      by_cases hc : current < stop
      · rw [if_pos hc] at h ⊢
        obtain ⟨hd, hhd, h⟩ := bind_eq_ok.mp h
        obtain ⟨s2, hs2, h⟩ := bind_eq_ok.mp h
        rw [hhd, ok_bind]
        refine bind_eq_ok.mpr ⟨metaProject s2, ?_, ?_⟩
        · exact mdldStep_meta b hd (current + 8) _ _ hs2
        · exact ih b stop (current + 8 + hd.dataSize) s2 sOut (by omega) h
      · rw [if_neg hc] at h ⊢
        cases Except.ok.inj h
        rfl

/--
C8 (confirmed): for the same input buffer, when the full decode of an MDL
data chunk succeeds, the metadata-only decode also succeeds, reads every
chunk header at the same offsets (`visited`), decodes every non-excluded
chunk to the same value, and leaves the skipped chunks' payload storage
(triangles, matrices) empty — the result is exactly the full result with
the heavy payload storage emptied, because the skip still advances by the
declared chunk length plus the 8-byte header.
-/
theorem c8_metadata_only_equivalence :
    ∀ (b : Bytes) (fileOffset dataSize : Nat) (s : MDLDStateS),
      mdldParse false b fileOffset dataSize = .ok s →
      mdldParse true b fileOffset dataSize = .ok (metaProject s) ∧
      (metaProject s).visited = s.visited ∧
      (metaProject s).text = s.text ∧
      (metaProject s).mate = s.mate ∧
      (metaProject s).amap = s.amap ∧
      (metaProject s).inde = s.inde.map (fun p => (p.1, [])) ∧
      (metaProject s).tran = s.tran.map (fun p => (p.1, [])) := by
  intro b off ds s h
  refine ⟨?_, rfl, rfl, rfl, rfl, rfl, rfl⟩
  exact mdldLoop_meta (off + ds) b (off + ds) off mdldInitState s
    (by omega) h

/-- Evaluation of the triangle loop on the concrete chunk payload. -/
theorem mdldChunkBytes_inde_eval :
    indeLoop mdldChunkBytes 14 8 = .ok [(1, 2, 3)] := by
  rw [indeLoop.eq_def, if_pos (by norm_num), if_pos (by decide)]
  norm_num
  rw [indeLoop.eq_def, if_neg (by norm_num), ok_bind]
  decide

/-- Evaluation of the texture-name loop on the concrete chunk payload. -/
theorem mdldChunkBytes_text_eval :
    textLoop mdldChunkBytes 86 22 = .ok [[0x58]] := by
  rw [textLoop.eq_def, if_pos (by norm_num), if_pos (by decide)]
  have hs : stringz2Ascii (pySlice mdldChunkBytes 22 (22 + 64)) =
      .ok [0x58] := by decide
  rw [hs, ok_bind]
  norm_num
  rw [textLoop.eq_def, if_neg (by norm_num), ok_bind]

/-- Full (non-metadata) decode of the concrete MDL data chunk. -/
theorem mdldChunkBytes_full_eval :
    mdldParse false mdldChunkBytes 0 86 = .ok mdldChunkFullState := by
  have e1 : riffHeaderParse mdldChunkBytes 0 =
      .ok { typeId := [0x49, 0x4E, 0x44, 0x45], dataSize := 6 } := by decide
  have e2 : riffHeaderParse mdldChunkBytes 14 =
      .ok { typeId := [0x54, 0x45, 0x58, 0x54], dataSize := 64 } := by decide
  have t1 : mdldTagOfBytes [0x49, 0x4E, 0x44, 0x45] = some .inde := by decide
  have t2 : mdldTagOfBytes [0x54, 0x45, 0x58, 0x54] = some .text := by decide
  rw [mdldParse, mdldLoop.eq_def, if_pos (by norm_num), e1, ok_bind]
  dsimp only [mdldStep]
  rw [t1]
  dsimp only
  rw [if_pos (by decide)]
  norm_num
  rw [mdldChunkBytes_inde_eval, ok_bind, ok_bind]
  rw [mdldLoop.eq_def, if_pos (by norm_num), e2, ok_bind]
  dsimp only [mdldStep]
  rw [t2]
  dsimp only
  norm_num
  rw [mdldChunkBytes_text_eval, ok_bind, ok_bind]
  rw [mdldLoop.eq_def, if_neg (by norm_num)]
  decide

/--
C8 (witness): the theorem applied to the concrete data chunk holding an
`INDE` chunk (one triangle) followed by a `TEXT` chunk: metadata-only
decoding visits the same chunk offsets, decodes the `TEXT` chunk to the
same value, and leaves the triangle storage empty.
-/
theorem c8_metadata_only_witness :
    mdldParse true mdldChunkBytes 0 86 =
      .ok (metaProject mdldChunkFullState) ∧
    (metaProject mdldChunkFullState).visited = mdldChunkFullState.visited ∧
    (metaProject mdldChunkFullState).text = mdldChunkFullState.text ∧
    (metaProject mdldChunkFullState).mate = mdldChunkFullState.mate ∧
    (metaProject mdldChunkFullState).amap = mdldChunkFullState.amap ∧
    (metaProject mdldChunkFullState).inde =
      mdldChunkFullState.inde.map (fun p => (p.1, [])) ∧
    (metaProject mdldChunkFullState).tran =
      mdldChunkFullState.tran.map (fun p => (p.1, [])) :=
  c8_metadata_only_equivalence mdldChunkBytes 0 86 mdldChunkFullState
    mdldChunkBytes_full_eval

end FsParse
